import Mathlib

/-!
# Browservice: the vice plugin runtime (`src/vice.cpp`)

A shallow embedding of `ViceContext` (the context lifecycle state machine, the
open-window set, the callback trampolines and the event pump) together with
the properties of it that are established below.

Conventions of the embedding.

* A fatal condition (`PANIC`, a failed `REQUIRE`, a failed
  `REQUIRE_UI_THREAD`) is `Except.error (Fault.panic msg)`.  Behaviour that C++
  leaves undefined (dereferencing the empty `eventHandler_`, touching a
  destroyed object) is `Except.error (Fault.undefinedBehaviour what)`.
* A call that leaves the class (an entry point of the plugin, a method of the
  `ViceContextEventHandler`, the `putImageFunc` of the plugin) is appended to
  `World.calls`; `postTask` appends to `World.taskQueue`.
* What the outside answers is an argument of the function that asks: the value
  returned by `onViceContextCreateWindowRequest`, the sink invocations made by
  `onViceContextFetchWindowImage`.
* Window handles are `uint64_t` in the source; no arithmetic is performed on
  them, so they are natural numbers here.
* A fault of the functions in `Except` carries no world.  Where it matters what
  had been done when the process stopped, the same source lines are also given
  statement by statement as an `Op`, whose outcome keeps the world reached at
  the fault; each is proved to return what its `Except` form returns.
* A `char*` handed to the plugin is the content of its block, terminating NUL
  included; the characters of a Lean string stand for the bytes of a
  `std::string`.
-/

namespace Browservice

/-- The lifecycle states of a `ViceContext` (`state_`). -/
inductive State
  | Pending
  | Running
  | ShutdownComplete
deriving DecidableEq, Repr

/-- How an operation fails. -/
inductive Fault
  | panic (msg : String)
  | undefinedBehaviour (what : String)
deriving DecidableEq, Repr

deriving instance DecidableEq for Except

/-- The calling thread: the UI (control) thread or some other thread. -/
inductive Thread
  | ui
  | other
deriving DecidableEq, Repr

/-- Addresses of objects (contexts, event handlers, image buffers). -/
abbrev Ptr := Nat

/-- Window handles (`uint64_t`). -/
abbrev WindowHandle := Nat

/-- Tasks handed to `postTask`. -/
inductive Task
  | pumpEvents_
  | onViceContextShutdownComplete (handler : Ptr)
deriving DecidableEq, Repr

/-- Calls that leave `ViceContext`, in the order they are made. -/
inductive Call
  | apiStart
  | apiShutdown
  | apiPumpEvents
  | apiCloseWindow (window : WindowHandle)
  | apiNotifyWindowViewChanged (window : WindowHandle)
  | apiDestroyContext
  | onViceContextCreateWindowRequest (handler : Ptr)
  | onViceContextCloseWindow (handler : Ptr) (window : WindowHandle)
  | onViceContextFetchWindowImage (handler : Ptr) (window : WindowHandle)
  | putImageFunc (image : Ptr) (width height pitch : Nat)
deriving DecidableEq, Repr

/-- The data members of `ViceContext`.  `this` is the address of the object,
`eventHandler_` is `none` when the shared pointer is empty, `self_` tells
whether the self-reference is held. -/
structure ViceContext where
  this : Ptr
  state_ : State
  shutdownPending_ : Bool
  pumpEventsInQueue_ : Bool
  nextWindowHandle_ : Nat
  openWindows_ : Finset WindowHandle
  eventHandler_ : Option Ptr
  self_ : Bool
deriving DecidableEq

/-- The `thread_local` variable `threadActivePumpEventsContext`: one slot per
thread, `none` for `nullptr`. -/
structure ThreadLocal where
  onUi : Option Ptr
  onOther : Option Ptr
deriving DecidableEq

/-- Reads the slot of thread `t`. -/
def ThreadLocal.get (m : ThreadLocal) : Thread → Option Ptr
  | .ui => m.onUi
  | .other => m.onOther

/-- Writes the slot of thread `t`. -/
def ThreadLocal.set (m : ThreadLocal) (t : Thread) (v : Option Ptr) : ThreadLocal :=
  match t with
  | .ui => { m with onUi := v }
  | .other => { m with onOther := v }

/-- Everything an operation of `ViceContext` can read or write: the build
flavour (`NDEBUG` or not), the object and whether it has been destroyed, the
thread-local pump marker, the task queue and the trace of outgoing calls. -/
structure World where
  ndebug : Bool
  ctx : ViceContext
  alive : Bool
  threadActivePumpEventsContext : ThreadLocal
  taskQueue : List Task
  calls : List Call
deriving DecidableEq

/-- Modelled from the spec: the `PANIC` macro is declared in a header that is
not part of the sources at hand; per §7 it reports through the panic sink and
aborts the process. -/
def PANIC {α : Type} (msg : String) : Except Fault α :=
  .error (.panic msg)

/-- Modelled from the spec: the `REQUIRE` macro is declared in a header that is
not part of the sources at hand; per §7 a requirement that does not hold is
fatal. -/
def REQUIRE (cond : Bool) (what : String) : Except Fault Unit :=
  if cond then .ok () else PANIC ("Requirement failed: " ++ what)

/-- Modelled from the spec: the `REQUIRE_UI_THREAD` macro is declared in a
header that is not part of the sources at hand; per §4.4 and §7 running on a
thread other than the control thread is fatal. -/
def REQUIRE_UI_THREAD (t : Thread) : Except Fault Unit :=
  REQUIRE (t == .ui) "UI thread"

/-- Modelled from the spec: `postTask` is declared in a header that is not part
of the sources at hand; per §4.4 it schedules the task to run later on the
control thread. -/
def postTask (task : Task) (w : World) : World :=
  { w with taskQueue := w.taskQueue ++ [task] }

/-- Records an outgoing call. -/
def World.call (w : World) (c : Call) : World :=
  { w with calls := w.calls ++ [c] }

/-- A member function is entered on an object that still exists. -/
def memberOf (w : World) : Except Fault Unit :=
  if w.alive then .ok () else .error (.undefinedBehaviour "member call on a destroyed ViceContext")

/-- Dereferences `eventHandler_`. -/
def derefEventHandler (w : World) : Except Fault Ptr :=
  match w.ctx.eventHandler_ with
  | some h => .ok h
  | none => .error (.undefinedBehaviour "eventHandler_ is empty")

/-- The constructor `ViceContext::ViceContext` (lines 286-298). -/
def ViceContext.new (this : Ptr) : ViceContext :=
  { this := this
    state_ := .Pending
    shutdownPending_ := false
    pumpEventsInQueue_ := false
    nextWindowHandle_ := 1
    openWindows_ := ∅
    eventHandler_ := none
    self_ := false }

/-- A world holding a freshly constructed context. -/
def World.fresh (ndebug : Bool) (this : Ptr) : World :=
  { ndebug := ndebug
    ctx := ViceContext.new this
    alive := true
    threadActivePumpEventsContext := { onUi := none, onOther := none }
    taskQueue := []
    calls := [] }

/-- The destructor `ViceContext::~ViceContext` (lines 300-303). -/
def destroy (w : World) : Except Fault World := do
  memberOf w
  REQUIRE (w.ctx.state_ == .Pending || w.ctx.state_ == .ShutdownComplete)
    "state_ == Pending || state_ == ShutdownComplete"
  pure { (w.call .apiDestroyContext) with alive := false }

/-- The member `ViceContext::start` (lines 305-435); `eventHandler` is `none`
for an empty shared pointer. -/
def start (t : Thread) (eventHandler : Option Ptr) (w : World) : Except Fault World := do
  memberOf w
  REQUIRE_UI_THREAD t
  REQUIRE (w.ctx.state_ == .Pending) "state_ == Pending"
  REQUIRE eventHandler.isSome "eventHandler"
  let w1 := { w with ctx := { w.ctx with
    state_ := .Running, eventHandler_ := eventHandler, self_ := true } }
  pure (w1.call .apiStart)

/-- The member `ViceContext::shutdown` (lines 437-444). -/
def shutdown (t : Thread) (w : World) : Except Fault World := do
  memberOf w
  REQUIRE_UI_THREAD t
  REQUIRE (w.ctx.state_ == .Running) "state_ == Running"
  REQUIRE (!w.ctx.shutdownPending_) "!shutdownPending_"
  let w1 := { w with ctx := { w.ctx with shutdownPending_ := true } }
  pure (w1.call .apiShutdown)

/-- The member `ViceContext::closeWindow` (lines 446-453). -/
def closeWindow (t : Thread) (window : WindowHandle) (w : World) : Except Fault World := do
  memberOf w
  REQUIRE_UI_THREAD t
  REQUIRE (w.ctx.state_ == .Running) "state_ == Running"
  REQUIRE (w.threadActivePumpEventsContext.get t == none)
    "threadActivePumpEventsContext == nullptr"
  REQUIRE (decide (window ∈ w.ctx.openWindows_)) "openWindows_.erase(window)"
  let w1 := { w with ctx := { w.ctx with openWindows_ := w.ctx.openWindows_.erase window } }
  pure (w1.call (.apiCloseWindow window))

/-- The member `ViceContext::notifyWindowViewChanged` (lines 455-462). -/
def notifyWindowViewChanged (t : Thread) (window : WindowHandle) (w : World) :
    Except Fault World := do
  memberOf w
  REQUIRE_UI_THREAD t
  REQUIRE (w.ctx.state_ == .Running) "state_ == Running"
  REQUIRE (w.threadActivePumpEventsContext.get t == none)
    "threadActivePumpEventsContext == nullptr"
  REQUIRE (decide (window ∈ w.ctx.openWindows_)) "openWindows_.count(window)"
  pure (w.call (.apiNotifyWindowViewChanged window))

/-- The opaque data pointer a callback is invoked with: `NULL`, or the pointer
that `start` handed to the plugin. -/
inductive CallbackData
  | null
  | context
deriving DecidableEq, Repr

/-- The static member `ViceContext::getContext_` (lines 464-483), in both build
flavours.  With `NDEBUG` the pointer is the object itself; otherwise it is a
leaked weak pointer that is locked. -/
def getContext_ (callbackData : CallbackData) (w : World) : Except Fault Unit :=
  match callbackData with
  | .null => PANIC "Vice plugin sent unexpected NULL pointer as callback data"
  | .context =>
    if w.ndebug then
      memberOf w
    else if w.alive then
      if w.ctx.state_ == .ShutdownComplete then
        PANIC "Vice plugin called a callback for a context that has shut down"
      else
        REQUIRE (w.ctx.state_ == .Running) "self->state_ == Running"
    else
      PANIC "Vice plugin called a callback for a context that has been destroyed"

/-- The prologue of `CTX_CALLBACK_WITHOUT_PUMPEVENTS_CHECK` (lines 232-238). -/
def CTX_CALLBACK_WITHOUT_PUMPEVENTS_CHECK (callbackData : CallbackData) (w : World) :
    Except Fault Unit :=
  getContext_ callbackData w

/-- The prologue of `CTX_CALLBACK` (lines 240-250): resolve the context, compare
the pump marker of the calling thread with it, require the UI thread. -/
def CTX_CALLBACK (t : Thread) (callbackData : CallbackData) (w : World) : Except Fault Unit := do
  CTX_CALLBACK_WITHOUT_PUMPEVENTS_CHECK callbackData w
  if w.threadActivePumpEventsContext.get t != some w.ctx.this then
    PANIC ("Vice plugin unexpectedly called a callback in a thread that " ++
      "is not currently executing vicePluginAPI_pumpEvents")
  REQUIRE_UI_THREAD t

/-- The NUL character, which terminates a C string. -/
def NUL : Char := Char.ofNat 0

/-- The function `createMallocString` (lines 33-39); `mallocOk` tells whether
`malloc` returned a block.  The result is the content of the block: the
`val.size() + 1` characters copied from `val.c_str()`, that is the characters
of `val` followed by the terminating NUL. -/
def createMallocString (mallocOk : Bool) (val : String) : Except Fault (List Char) := do
  REQUIRE mallocOk "ret != nullptr"
  pure (val.toList ++ [NUL])

/-- What a reader of a `char*` finds in a block: the characters before the
first NUL. -/
def cStringText (block : List Char) : String :=
  String.mk (block.takeWhile (fun c => c != NUL))

/-- The member `ViceContext::shutdownComplete_` (lines 497-512). -/
def shutdownComplete_ (t : Thread) (w : World) : Except Fault World := do
  REQUIRE_UI_THREAD t
  REQUIRE (w.ctx.state_ == .Running) "state_ == Running"
  REQUIRE w.ctx.shutdownPending_ "shutdownPending_"
  let w1 := { w with ctx := { w.ctx with
    state_ := .ShutdownComplete, shutdownPending_ := false, self_ := false } }
  REQUIRE w1.ctx.eventHandler_.isSome "eventHandler_"
  let h ← derefEventHandler w1
  let w2 := postTask (.onViceContextShutdownComplete h) w1
  pure { w2 with ctx := { w2.ctx with eventHandler_ := none } }

/-- The callback `callbacks.eventNotify` (lines 327-331). -/
def callbacks_eventNotify (callbackData : CallbackData) (w : World) : Except Fault World := do
  CTX_CALLBACK_WITHOUT_PUMPEVENTS_CHECK callbackData w
  let old := w.ctx.pumpEventsInQueue_
  let w1 := { w with ctx := { w.ctx with pumpEventsInQueue_ := true } }
  if !old then
    pure (postTask .pumpEvents_ w1)
  else
    pure w1

/-- The callback `callbacks.shutdownComplete` (lines 333-335). -/
def callbacks_shutdownComplete (t : Thread) (callbackData : CallbackData) (w : World) :
    Except Fault World := do
  CTX_CALLBACK t callbackData w
  shutdownComplete_ t w

/-- What `callbacks.createWindow` hands back to the plugin: the returned handle
and the content of the block whose address was stored through `msg`, if one
was stored. -/
structure CreateWindowReturn where
  window : WindowHandle
  msg : Option (List Char)
deriving DecidableEq, Repr

/-- The callback `callbacks.createWindow` (lines 337-348).  `msgIsNull` tells
whether the plugin passed `msg == nullptr`; `window` is the handle returned by
`onViceContextCreateWindowRequest` and `reason` the string it assigned to its
reference argument (`none` when it left it alone). -/
def callbacks_createWindow (t : Thread) (callbackData : CallbackData) (msgIsNull : Bool)
    (window : WindowHandle) (reason : Option String) (mallocOk : Bool) (w : World) :
    Except Fault (World × CreateWindowReturn) := do
  CTX_CALLBACK t callbackData w
  let reason := reason.getD "Unknown reason"
  let h ← derefEventHandler w
  let w1 := w.call (.onViceContextCreateWindowRequest h)
  if window != 0 || msgIsNull then
    REQUIRE (decide (window ∉ w1.ctx.openWindows_)) "self->openWindows_.insert(window).second"
    let w2 := { w1 with ctx := { w1.ctx with openWindows_ := insert window w1.ctx.openWindows_ } }
    pure (w2, { window := window, msg := none })
  else
    let copy ← createMallocString mallocOk reason
    pure (w1, { window := 0, msg := some copy })

/-- The callback `callbacks.closeWindow` (lines 350-353). -/
def callbacks_closeWindow (t : Thread) (callbackData : CallbackData) (window : WindowHandle)
    (w : World) : Except Fault World := do
  CTX_CALLBACK t callbackData w
  REQUIRE (decide (window ∈ w.ctx.openWindows_)) "self->openWindows_.erase(window)"
  let w1 := { w with ctx := { w.ctx with openWindows_ := w.ctx.openWindows_.erase window } }
  let h ← derefEventHandler w1
  pure (w1.call (.onViceContextCloseWindow h window))

/-- One invocation of the sink that `callbacks.fetchWindowImage` gives to the
event handler. -/
structure SinkCall where
  image : Ptr
  width : Nat
  height : Nat
  pitch : Nat
deriving DecidableEq, Repr

/-- The body of the sink lambda (lines 378-390); the Boolean is
`putImageCalled`. -/
def putImageSink (st : World × Bool) (c : SinkCall) : Except Fault (World × Bool) := do
  REQUIRE (!st.2) "!putImageCalled"
  REQUIRE (c.width != 0) "width"
  REQUIRE (c.height != 0) "height"
  pure (st.1.call (.putImageFunc c.image c.width c.height c.pitch), true)

/-- Runs the sink invocations the event handler makes, in order. -/
def runSink (st : World × Bool) : List SinkCall → Except Fault (World × Bool)
  | [] => .ok st
  | c :: rest =>
    match putImageSink st c with
    | .ok st1 => runSink st1 rest
    | .error e => .error e

/-- The callback `callbacks.fetchWindowImage` (lines 362-393); `sink` lists the
invocations of the sink made by `onViceContextFetchWindowImage`. -/
def callbacks_fetchWindowImage (t : Thread) (callbackData : CallbackData)
    (window : WindowHandle) (sink : List SinkCall) (w : World) : Except Fault World := do
  CTX_CALLBACK t callbackData w
  REQUIRE (decide (window ∈ w.ctx.openWindows_)) "self->openWindows_.count(window)"
  let h ← derefEventHandler w
  let w1 := w.call (.onViceContextFetchWindowImage h window)
  let (w2, putImageCalled) ← runSink (w1, false) sink
  REQUIRE putImageCalled "putImageCalled"
  pure w2

/-- The callbacks whose body is empty (lines 355-360 and 395-428):
`resizeWindow` and the input events. -/
def callbacks_emptyBody (t : Thread) (callbackData : CallbackData) (w : World) :
    Except Fault World := do
  CTX_CALLBACK t callbackData w
  pure w

/-- The first half of `ViceContext::pumpEvents_` (lines 485-493): up to and
including the call of the plugin's `pumpEvents`. -/
def pumpEventsEnter (t : Thread) (w : World) : Except Fault World := do
  memberOf w
  REQUIRE_UI_THREAD t
  REQUIRE (w.ctx.state_ == .Running) "state_ == Running"
  REQUIRE (w.threadActivePumpEventsContext.get t == none)
    "threadActivePumpEventsContext == nullptr"
  let w1 := { w with ctx := { w.ctx with pumpEventsInQueue_ := false } }
  let w2 := { w1 with threadActivePumpEventsContext :=
    w1.threadActivePumpEventsContext.set t (some w1.ctx.this) }
  pure (w2.call .apiPumpEvents)

/-- The second half of `ViceContext::pumpEvents_` (line 494): the plugin's
`pumpEvents` has returned. -/
def pumpEventsLeave (t : Thread) (w : World) : World :=
  { w with threadActivePumpEventsContext := w.threadActivePumpEventsContext.set t none }

/-- The entries of the callback table given to the plugin by `start`, with
their arguments and with what the event handler answers. -/
inductive Callback
  | eventNotify
  | shutdownComplete
  | createWindow (msgIsNull : Bool) (window : WindowHandle) (reason : Option String)
      (mallocOk : Bool)
  | closeWindow (window : WindowHandle)
  | resizeWindow (window : WindowHandle) (width height : Nat)
  | fetchWindowImage (window : WindowHandle) (sink : List SinkCall)
  | mouseDown (window : WindowHandle) (x y button : Int)
  | mouseUp (window : WindowHandle) (x y button : Int)
  | mouseMove (window : WindowHandle) (x y : Int)
  | mouseDoubleClick (window : WindowHandle) (x y button : Int)
  | mouseWheel (window : WindowHandle) (x y dx dy : Int)
  | mouseLeave (window : WindowHandle) (x y : Int)
  | keyDown (window : WindowHandle) (key : Int)
  | keyUp (window : WindowHandle) (key : Int)
  | loseFocus (window : WindowHandle)
deriving DecidableEq, Repr

/-- Invokes an entry of the callback table on thread `t` with data pointer
`callbackData`; the value returned to the plugin is dropped. -/
def invoke (t : Thread) (callbackData : CallbackData) (w : World) :
    Callback → Except Fault World
  | .eventNotify => callbacks_eventNotify callbackData w
  | .shutdownComplete => callbacks_shutdownComplete t callbackData w
  | .createWindow msgIsNull window reason mallocOk =>
    (callbacks_createWindow t callbackData msgIsNull window reason mallocOk w).map Prod.fst
  | .closeWindow window => callbacks_closeWindow t callbackData window w
  | .fetchWindowImage window sink => callbacks_fetchWindowImage t callbackData window sink w
  | .resizeWindow _ _ _ => callbacks_emptyBody t callbackData w
  | .mouseDown _ _ _ _ => callbacks_emptyBody t callbackData w
  | .mouseUp _ _ _ _ => callbacks_emptyBody t callbackData w
  | .mouseMove _ _ _ => callbacks_emptyBody t callbackData w
  | .mouseDoubleClick _ _ _ _ => callbacks_emptyBody t callbackData w
  | .mouseWheel _ _ _ _ _ => callbacks_emptyBody t callbackData w
  | .mouseLeave _ _ _ => callbacks_emptyBody t callbackData w
  | .keyDown _ _ => callbacks_emptyBody t callbackData w
  | .keyUp _ _ => callbacks_emptyBody t callbackData w
  | .loseFocus _ => callbacks_emptyBody t callbackData w

/-- One step of an execution: a member function called by the host, one of the
two halves of the pump task, the destructor, or a callback invoked by the
plugin.  Each carries the thread it runs on. -/
inductive Step
  | start (t : Thread) (eventHandler : Option Ptr)
  | shutdown (t : Thread)
  | closeWindow (t : Thread) (window : WindowHandle)
  | notifyWindowViewChanged (t : Thread) (window : WindowHandle)
  | pumpEventsEnter (t : Thread)
  | pumpEventsLeave (t : Thread)
  | destroy
  | callback (t : Thread) (callbackData : CallbackData) (cb : Callback)
deriving DecidableEq, Repr

/-- Executes one step. -/
def step (w : World) : Step → Except Fault World
  | .start t eventHandler => start t eventHandler w
  | .shutdown t => shutdown t w
  | .closeWindow t window => closeWindow t window w
  | .notifyWindowViewChanged t window => notifyWindowViewChanged t window w
  | .pumpEventsEnter t => pumpEventsEnter t w
  | .pumpEventsLeave t => .ok (pumpEventsLeave t w)
  | .destroy => destroy w
  | .callback t callbackData cb => invoke t callbackData w cb

/-- Executes a sequence of steps, stopping at the first fault. -/
def run (w : World) : List Step → Except Fault World
  | [] => .ok w
  | s :: rest =>
    match step w s with
    | .ok w1 => run w1 rest
    | .error e => .error e

/-- The member `ViceContext::pumpEvents_` (lines 485-495) as a whole; `during`
lists what happens while the plugin's `pumpEvents` entry point runs. -/
def pumpEvents_ (t : Thread) (during : List Step) (w : World) : Except Fault World := do
  let w1 ← pumpEventsEnter t w
  let w2 ← run w1 during
  pure (pumpEventsLeave t w2)

/-- The result is a panic. -/
def isPanic {α : Type} : Except Fault α → Bool
  | .error (.panic _) => true
  | _ => false

/-- The position of a lifecycle state on the line
Pending, Running, ShutdownComplete. -/
def State.rank : State → Nat
  | .Pending => 0
  | .Running => 1
  | .ShutdownComplete => 2

/-- A world of the debug build in which the context at address 7 is Running
with event handler 3 and the given open windows, outside any pump, as left by
`start`. -/
def World.running (openWindows : Finset WindowHandle) : World :=
  { ndebug := false
    ctx :=
      { this := 7
        state_ := .Running
        shutdownPending_ := false
        pumpEventsInQueue_ := false
        nextWindowHandle_ := 1
        openWindows_ := openWindows
        eventHandler_ := some 3
        self_ := true }
    alive := true
    threadActivePumpEventsContext := { onUi := none, onOther := none }
    taskQueue := []
    calls := [.apiStart] }

/-- The world `World.running` after the pump task has entered the plugin's
`pumpEvents`: the marker of the UI thread is the context. -/
def World.pumping (openWindows : Finset WindowHandle) : World :=
  { World.running openWindows with
    threadActivePumpEventsContext := { onUi := some 7, onOther := none }
    calls := [.apiStart, .apiPumpEvents] }

/-- The world `World.pumping` of a context on which `shutdown` has been
called. -/
def World.pumpingShutdown (openWindows : Finset WindowHandle) : World :=
  { World.pumping openWindows with
    ctx := { (World.pumping openWindows).ctx with shutdownPending_ := true }
    calls := [.apiStart, .apiShutdown, .apiPumpEvents] }

/-- The step is a create-window callback in which the event handler returns
the handle `x`. -/
def Step.creates (x : WindowHandle) : Step → Bool
  | .callback _ _ (.createWindow _ window _ _) => window == x
  | _ => false

/-- The input-event callbacks of the table, each naming the window `x`. -/
def inputEvents (x : WindowHandle) (a b c e : Int) : List Callback :=
  [.mouseDown x a b c, .mouseUp x a b c, .mouseMove x a b, .mouseDoubleClick x a b c,
    .mouseWheel x a b c e, .mouseLeave x a b, .keyDown x a, .keyUp x a, .loseFocus x]

/-! ## The plugin loader (`VicePlugin`) -/

/-- The entry points listed by `FOREACH_VICE_API_FUNC` (lines 10-22), in the
order in which `load` resolves them. -/
def apiFuncNames : List String :=
  ["isAPIVersionSupported", "getVersionString", "initContext", "destroyContext", "start",
    "shutdown", "pumpEvents", "closeWindow", "notifyWindowViewChanged", "getOptionDocs",
    "setGlobalLogCallback", "setGlobalPanicCallback"]

/-- One item of the option documentation (`VicePlugin::OptionDocsItem`). -/
structure OptionDocsItem where
  name : String
  valSpec : String
  desc : String
  defaultValStr : String
deriving DecidableEq, Repr

/-- A shared library as `load` sees it: which symbols `dlsym` finds in it, what
its `isAPIVersionSupported` answers, and with which arguments its
`getOptionDocs` calls the collector it is given, in call order. -/
structure Library where
  symbols : String → Bool
  isAPIVersionSupported : Nat → Bool
  getOptionDocs : Nat → List OptionDocsItem

/-- The process-wide state that `load` touches: how many handles of the library
are open, and the file name carried by the log and by the panic callback
registered with the plugin (`none` when none is registered). -/
structure Process where
  openHandles : Nat
  logCallback : Option String
  panicCallback : Option String
deriving DecidableEq, Repr

/-- The library function `dlclose` on a handle obtained from `dlopen`: it
returns 0 and gives the handle back when a handle is open, and a non-zero value
otherwise. -/
def dlclose (p : Process) : Int × Process :=
  if p.openHandles = 0 then (-1, p) else (0, { p with openHandles := p.openHandles - 1 })

/-- The data members of `VicePlugin`; `lib` stands for `lib_` together with the
resolved `apiFuncs_`. -/
structure VicePlugin where
  filename_ : String
  apiVersion_ : Nat
  lib : Library

/-- The first entry point of the list that `dlsym` does not find. -/
def firstMissing (lib : Library) : List String → Option String
  | [] => none
  | name :: rest =>
    if lib.symbols ("vicePluginAPI_" ++ name) then firstMissing lib rest else some name

/-- The static member `VicePlugin::load` (lines 104-168).  `dlopen` tells what
opening a file name yields (`none` when `dlopen` returns a null handle).  The
result is the returned pointer (`none` for the empty pointer) and the process
state on return. -/
def VicePlugin.load (t : Thread) (dlopen : String → Option Library) (filename : String)
    (p : Process) : Except Fault (Option VicePlugin × Process) := do
  REQUIRE_UI_THREAD t
  match dlopen filename with
  | none => pure (none, p)
  | some lib =>
    let p1 := { p with openHandles := p.openHandles + 1 }
    match firstMissing lib apiFuncNames with
    | some _ =>
      REQUIRE ((dlclose p1).1 == 0) "dlclose(lib) == 0"
      pure (none, (dlclose p1).2)
    | none =>
      let apiVersion := 1000000
      if !lib.isAPIVersionSupported apiVersion then
        REQUIRE ((dlclose p1).1 == 0) "dlclose(lib) == 0"
        pure (none, (dlclose p1).2)
      else
        let p2 := { p1 with logCallback := some filename }
        let p3 := { p2 with panicCallback := some filename }
        pure (some { filename_ := filename, apiVersion_ := apiVersion, lib := lib }, p3)

/-- The collector lambda that `getOptionDocs` passes to the plugin (lines
202-216): `ret.push_back(...)`. -/
def optionDocsCollector (ret : List OptionDocsItem) (name valSpec desc defaultValStr : String) :
    List OptionDocsItem :=
  ret ++ [{ name := name, valSpec := valSpec, desc := desc, defaultValStr := defaultValStr }]

/-- The entry point `getOptionDocs` of the plugin running against a collector:
it calls the collector once for each tuple, in order. -/
def runOptionDocs (ret : List OptionDocsItem) : List OptionDocsItem → List OptionDocsItem
  | [] => ret
  | c :: rest =>
    runOptionDocs (optionDocsCollector ret c.name c.valSpec c.desc c.defaultValStr) rest

/-- The member `VicePlugin::getOptionDocs` (lines 195-221).  The result is the
returned vector together with the API versions of the calls made to the plugin's
`getOptionDocs` entry point. -/
def VicePlugin.getOptionDocs (t : Thread) (plugin : VicePlugin) :
    Except Fault (List OptionDocsItem × List Nat) := do
  REQUIRE_UI_THREAD t
  let ret : List OptionDocsItem := []
  let ret := runOptionDocs ret (plugin.lib.getOptionDocs plugin.apiVersion_)
  pure (ret, [plugin.apiVersion_])

/-- A library that exports every entry point, supports API version 1000000 only
and documents one option, "quality", with default "75". -/
def Library.quality : Library :=
  { symbols := fun _ => true
    isAPIVersionSupported := fun v => v == 1000000
    getOptionDocs := fun _ =>
      [{ name := "quality", valSpec := "QUALITY", desc := "image quality",
         defaultValStr := "75" }] }

/-! ## The event loop and concurrent event notifications -/

/-- The number of pump tasks that have been posted and not yet run. -/
def pendingPumps (w : World) : Nat :=
  w.taskQueue.count .pumpEvents_

/-- The event loop of the control thread takes the first task of the queue and
runs it.  A pump task runs `pumpEvents_`, `during` listing what happens while
the plugin's `pumpEvents` executes; the shutdown-complete notification runs in
the event handler, outside the context. -/
def runTask (during : List Step) (w : World) : Except Fault World :=
  match w.taskQueue with
  | [] => .ok w
  | .pumpEvents_ :: rest => pumpEvents_ .ui during { w with taskQueue := rest }
  | .onViceContextShutdownComplete _ :: rest => .ok { w with taskQueue := rest }

/-- What happens in an execution driven by the event loop: a step taken by the
host or by the plugin between tasks, or the run of the next posted task. -/
inductive Action
  | step (s : Step)
  | task (during : List Step)
deriving DecidableEq, Repr

/-- Executes one action. -/
def act (w : World) : Action → Except Fault World
  | .step s => step w s
  | .task during => runTask during w

/-- Executes a sequence of actions, stopping at the first fault. -/
def exec (w : World) : List Action → Except Fault World
  | [] => .ok w
  | a :: rest =>
    match act w a with
    | .ok w1 => exec w1 rest
    | .error e => .error e

/-- The step is the first half of the pump task taken directly, not through the
task queue. -/
def Step.isPumpEnter : Step → Bool
  | .pumpEventsEnter _ => true
  | _ => false

/-- The pump is entered only through the task queue: `pumpEvents_` is a private
member that is only ever handed to `postTask`. -/
def Action.viaQueue : Action → Bool
  | .step s => !s.isPumpEnter
  | .task during => during.all (fun s => !s.isPumpEnter)

/-- The first atomic action of `callbacks.eventNotify` (lines 327-328): the
context is resolved and `pumpEventsInQueue_.exchange(true)` is performed; the
Boolean is the value the exchange returns. -/
def eventNotifyExchange (callbackData : CallbackData) (w : World) :
    Except Fault (World × Bool) := do
  CTX_CALLBACK_WITHOUT_PUMPEVENTS_CHECK callbackData w
  pure ({ w with ctx := { w.ctx with pumpEventsInQueue_ := true } }, w.ctx.pumpEventsInQueue_)

/-- The second action of `callbacks.eventNotify` (lines 328-330): the pump task
is posted when the exchange returned false. -/
def eventNotifyPost (old : Bool) (w : World) : World :=
  if !old then postTask .pumpEvents_ w else w

/-- The invocations of event-notify that are in flight, counted by how far they
have got: not yet at the exchange, past the exchange holding the value false,
past the exchange holding the value true, returned. -/
structure Notifiers where
  ready : Nat
  holdingFalse : Nat
  holdingTrue : Nat
  returned : Nat
deriving DecidableEq, Repr

/-- One atomic action of some invocation of event-notify: the exchange, or the
second half of an invocation that holds the value `old`. -/
inductive NotifyStep
  | exchange
  | finish (old : Bool)
deriving DecidableEq, Repr

/-- Performs one atomic action; an action that no invocation can take leaves
everything as it is. -/
def notifyStep (callbackData : CallbackData) (st : World × Notifiers) :
    NotifyStep → Except Fault (World × Notifiers)
  | .exchange =>
    if st.2.ready = 0 then .ok st
    else do
      let (w1, old) ← eventNotifyExchange callbackData st.1
      if old then
        pure (w1, { st.2 with ready := st.2.ready - 1, holdingTrue := st.2.holdingTrue + 1 })
      else
        pure (w1, { st.2 with ready := st.2.ready - 1, holdingFalse := st.2.holdingFalse + 1 })
  | .finish false =>
    if st.2.holdingFalse = 0 then .ok st
    else .ok (eventNotifyPost false st.1,
      { st.2 with holdingFalse := st.2.holdingFalse - 1, returned := st.2.returned + 1 })
  | .finish true =>
    if st.2.holdingTrue = 0 then .ok st
    else .ok (eventNotifyPost true st.1,
      { st.2 with holdingTrue := st.2.holdingTrue - 1, returned := st.2.returned + 1 })

/-- Performs the atomic actions of a schedule in order. -/
def interleave (callbackData : CallbackData) (st : World × Notifiers) :
    List NotifyStep → Except Fault (World × Notifiers)
  | [] => .ok st
  | a :: rest =>
    match notifyStep callbackData st a with
    | .ok st1 => interleave callbackData st1 rest
    | .error e => .error e

/-- The pending-pump flag accounts for the posted pump tasks: one task when the
flag is set, none when it is clear. -/
def flagCountsPumps (w : World) : Prop :=
  pendingPumps w = if w.ctx.pumpEventsInQueue_ then 1 else 0

/-- What holds of `k` concurrent invocations of event-notify that started on the
world `w0`, at every point of every interleaving: the context is still live and
Running, `posted` pump tasks have been appended to the queue of `w0`, the
invocations that hold the value false and the posted tasks together are one when
the flag is set and none when it is clear, while the flag is clear no invocation
has passed its exchange, and no invocation is lost. -/
def NotifyInv (w0 : World) (k : Nat) (st : World × Notifiers) (posted : Nat) : Prop :=
  st.1.alive = true ∧ st.1.ctx.state_ = .Running ∧
  st.1.taskQueue = w0.taskQueue ++ List.replicate posted .pumpEvents_ ∧
  st.2.holdingFalse + posted = (if st.1.ctx.pumpEventsInQueue_ then 1 else 0) ∧
  (st.1.ctx.pumpEventsInQueue_ = false →
    st.2.holdingFalse = 0 ∧ st.2.holdingTrue = 0 ∧ st.2.returned = 0) ∧
  st.2.ready + st.2.holdingFalse + st.2.holdingTrue + st.2.returned = k

/-- The invocations at the start: `k` of them, none yet at its exchange. -/
def Notifiers.fresh (k : Nat) : Notifiers :=
  { ready := k, holdingFalse := 0, holdingTrue := 0, returned := 0 }

/-! ## Operations together with the world in which they stop

The functions above give the world an operation returns with.  The functions
below follow the same source lines statement by statement and also keep the
world reached when a requirement fails, so that what had been done before the
process stopped can be read off. -/

/-- How an operation ended and the world it ended in: the world it returned
with, or the world in which it stopped on a fault. -/
structure Traced (α : Type) where
  result : Except Fault α
  world : World

/-- An operation on the world. -/
def Op (α : Type) : Type := World → Traced α

/-- An operation that returns at once. -/
def Op.pure {α : Type} (a : α) : Op α :=
  fun w => { result := .ok a, world := w }

/-- Sequencing: the second operation runs in the world the first returned with;
a fault of the first stops both, in the world of the fault. -/
def Op.bind {α β : Type} (x : Op α) (f : α → Op β) : Op β :=
  fun w =>
    match (x w).result with
    | .ok a => f a (x w).world
    | .error e => { result := .error e, world := (x w).world }

instance : Monad Op where
  pure := Op.pure
  bind := Op.bind

/-- A statement that reads the world and may fail, changing nothing. -/
def Op.check {α : Type} (c : World → Except Fault α) : Op α :=
  fun w => { result := c w, world := w }

/-- A statement that changes the world. -/
def Op.update (f : World → World) : Op Unit :=
  fun w => { result := .ok (), world := f w }

/-- The world an operation returned with, or its fault. -/
def Traced.toExcept (x : Traced Unit) : Except Fault World :=
  match x.result with
  | .ok _ => .ok x.world
  | .error e => .error e

/-- The member `ViceContext::closeWindow` (lines 446-453), statement by
statement. -/
def Op.closeWindow (t : Thread) (window : WindowHandle) : Op Unit := do
  Op.check memberOf
  Op.check (fun _ => REQUIRE_UI_THREAD t)
  Op.check (fun w => REQUIRE (w.ctx.state_ == .Running) "state_ == Running")
  Op.check (fun w => REQUIRE (w.threadActivePumpEventsContext.get t == none)
    "threadActivePumpEventsContext == nullptr")
  Op.check (fun w => REQUIRE (decide (window ∈ w.ctx.openWindows_))
    "openWindows_.erase(window)")
  Op.update (fun w =>
    { w with ctx := { w.ctx with openWindows_ := w.ctx.openWindows_.erase window } })
  Op.update (fun w => w.call (.apiCloseWindow window))

/-- The prologue of `CTX_CALLBACK` (lines 240-250); it changes nothing. -/
def Op.CTX_CALLBACK (t : Thread) (callbackData : CallbackData) : Op Unit :=
  Op.check (Browservice.CTX_CALLBACK t callbackData)

/-- The member `ViceContext::shutdownComplete_` (lines 497-512), statement by
statement. -/
def Op.shutdownComplete_ (t : Thread) : Op Unit := do
  Op.check (fun _ => REQUIRE_UI_THREAD t)
  Op.check (fun w => REQUIRE (w.ctx.state_ == .Running) "state_ == Running")
  Op.check (fun w => REQUIRE w.ctx.shutdownPending_ "shutdownPending_")
  Op.update (fun w => { w with ctx := { w.ctx with
    state_ := .ShutdownComplete, shutdownPending_ := false, self_ := false } })
  Op.check (fun w => REQUIRE w.ctx.eventHandler_.isSome "eventHandler_")
  let h ← Op.check derefEventHandler
  Op.update (postTask (.onViceContextShutdownComplete h))
  Op.update (fun w => { w with ctx := { w.ctx with eventHandler_ := none } })

/-- The callback `callbacks.shutdownComplete` (lines 333-335), statement by
statement. -/
def Op.callbacks_shutdownComplete (t : Thread) (callbackData : CallbackData) : Op Unit := do
  Op.CTX_CALLBACK t callbackData
  Op.shutdownComplete_ t

/-- The callback `callbacks.createWindow` (lines 337-348), statement by
statement. -/
def Op.callbacks_createWindow (t : Thread) (callbackData : CallbackData) (msgIsNull : Bool)
    (window : WindowHandle) (reason : Option String) (mallocOk : Bool) :
    Op CreateWindowReturn := do
  Op.CTX_CALLBACK t callbackData
  let reason := reason.getD "Unknown reason"
  let h ← Op.check derefEventHandler
  Op.update (fun w => w.call (.onViceContextCreateWindowRequest h))
  if window != 0 || msgIsNull then
    Op.check (fun w => REQUIRE (decide (window ∉ w.ctx.openWindows_))
      "self->openWindows_.insert(window).second")
    Op.update (fun w =>
      { w with ctx := { w.ctx with openWindows_ := insert window w.ctx.openWindows_ } })
    pure { window := window, msg := none }
  else
    let copy ← Op.check (fun _ => createMallocString mallocOk reason)
    pure { window := 0, msg := some copy }

/-- The callback `callbacks.closeWindow` (lines 350-353), statement by
statement. -/
def Op.callbacks_closeWindow (t : Thread) (callbackData : CallbackData)
    (window : WindowHandle) : Op Unit := do
  Op.CTX_CALLBACK t callbackData
  Op.check (fun w => REQUIRE (decide (window ∈ w.ctx.openWindows_))
    "self->openWindows_.erase(window)")
  Op.update (fun w =>
    { w with ctx := { w.ctx with openWindows_ := w.ctx.openWindows_.erase window } })
  let h ← Op.check derefEventHandler
  Op.update (fun w => w.call (.onViceContextCloseWindow h window))

/-- The sink lambda (lines 378-390) applied to the invocations the event
handler makes, in order; the argument and the result are `putImageCalled`. -/
def Op.runSink (putImageCalled : Bool) : List SinkCall → Op Bool
  | [] => pure putImageCalled
  | c :: rest => do
    Op.check (fun _ => REQUIRE (!putImageCalled) "!putImageCalled")
    Op.check (fun _ => REQUIRE (c.width != 0) "width")
    Op.check (fun _ => REQUIRE (c.height != 0) "height")
    Op.update (fun w => w.call (.putImageFunc c.image c.width c.height c.pitch))
    Op.runSink true rest

/-- The callback `callbacks.fetchWindowImage` (lines 362-393), statement by
statement. -/
def Op.callbacks_fetchWindowImage (t : Thread) (callbackData : CallbackData)
    (window : WindowHandle) (sink : List SinkCall) : Op Unit := do
  Op.CTX_CALLBACK t callbackData
  Op.check (fun w => REQUIRE (decide (window ∈ w.ctx.openWindows_))
    "self->openWindows_.count(window)")
  let h ← Op.check derefEventHandler
  Op.update (fun w => w.call (.onViceContextFetchWindowImage h window))
  let putImageCalled ← Op.runSink false sink
  Op.check (fun _ => REQUIRE putImageCalled "putImageCalled")

/-- The callbacks whose body is empty (lines 355-360 and 395-428), statement by
statement. -/
def Op.callbacks_emptyBody (t : Thread) (callbackData : CallbackData) : Op Unit := do
  Op.CTX_CALLBACK t callbackData

/-- The atomic `pumpEventsInQueue_.exchange(true)`: the flag is set and its
previous value returned. -/
def Op.exchange : Op Bool :=
  fun w =>
    { result := .ok w.ctx.pumpEventsInQueue_
      world := { w with ctx := { w.ctx with pumpEventsInQueue_ := true } } }

/-- The callback `callbacks.eventNotify` (lines 327-331), statement by
statement. -/
def Op.callbacks_eventNotify (callbackData : CallbackData) : Op Unit := do
  Op.check (CTX_CALLBACK_WITHOUT_PUMPEVENTS_CHECK callbackData)
  let old ← Op.exchange
  if !old then
    Op.update (postTask .pumpEvents_)

/-- Invokes an entry of the callback table on thread `t` with data pointer
`callbackData`, keeping the world in which it stops; the value returned to the
plugin is dropped. -/
def Op.invoke (t : Thread) (callbackData : CallbackData) : Callback → Op Unit
  | .eventNotify => Op.callbacks_eventNotify callbackData
  | .shutdownComplete => Op.callbacks_shutdownComplete t callbackData
  | .createWindow msgIsNull window reason mallocOk => do
    let _ ← Op.callbacks_createWindow t callbackData msgIsNull window reason mallocOk
  | .closeWindow window => Op.callbacks_closeWindow t callbackData window
  | .fetchWindowImage window sink => Op.callbacks_fetchWindowImage t callbackData window sink
  | .resizeWindow _ _ _ => Op.callbacks_emptyBody t callbackData
  | .mouseDown _ _ _ _ => Op.callbacks_emptyBody t callbackData
  | .mouseUp _ _ _ _ => Op.callbacks_emptyBody t callbackData
  | .mouseMove _ _ _ => Op.callbacks_emptyBody t callbackData
  | .mouseDoubleClick _ _ _ _ => Op.callbacks_emptyBody t callbackData
  | .mouseWheel _ _ _ _ _ => Op.callbacks_emptyBody t callbackData
  | .mouseLeave _ _ _ => Op.callbacks_emptyBody t callbackData
  | .keyDown _ _ => Op.callbacks_emptyBody t callbackData
  | .keyUp _ _ => Op.callbacks_emptyBody t callbackData
  | .loseFocus _ => Op.callbacks_emptyBody t callbackData

/-! ## Auxiliary facts about the embedding -/

theorem REQUIRE_ok_iff (c : Bool) (s : String) : REQUIRE c s = .ok () ↔ c = true := by
  cases c <;> simp [REQUIRE, PANIC]

theorem bind_REQUIRE {α : Type} (c : Bool) (s : String) (f : Unit → Except Fault α) :
    (REQUIRE c s >>= f) = if c then f () else PANIC ("Requirement failed: " ++ s) := by
  cases c <;> simp [REQUIRE, PANIC, bind, Except.bind]

theorem bind_memberOf {α : Type} (w : World) (f : Unit → Except Fault α) :
    (memberOf w >>= f) = if w.alive then f ()
      else .error (.undefinedBehaviour "member call on a destroyed ViceContext") := by
  unfold memberOf
  cases w.alive <;> simp [bind, Except.bind]



theorem bind_ok {α β : Type} (a : α) (f : α → Except Fault β) :
    ((Except.ok a : Except Fault α) >>= f) = f a := rfl

theorem start_ok_inv {t : Thread} {eh : Option Ptr} {w w1 : World} (h : start t eh w = .ok w1) :
    w.alive = true ∧ t = .ui ∧ w.ctx.state_ = .Pending ∧ eh.isSome = true ∧
    w1 = ({ w with ctx := { w.ctx with
      state_ := .Running, eventHandler_ := eh, self_ := true } } : World).call .apiStart := by
  unfold start at h
  simp only [bind_memberOf, bind_REQUIRE, REQUIRE_UI_THREAD, PANIC, pure, Except.pure] at h
  split_ifs at h
  simp_all

theorem shutdown_ok_inv {t : Thread} {w w1 : World} (h : shutdown t w = .ok w1) :
    w.alive = true ∧ t = .ui ∧ w.ctx.state_ = .Running ∧ w.ctx.shutdownPending_ = false ∧
    w1 = ({ w with ctx := { w.ctx with shutdownPending_ := true } } : World).call .apiShutdown := by
  unfold shutdown at h
  simp only [bind_memberOf, bind_REQUIRE, REQUIRE_UI_THREAD, PANIC, pure, Except.pure] at h
  split_ifs at h
  simp_all

theorem closeWindow_ok_inv {t : Thread} {window : WindowHandle} {w w1 : World}
    (h : closeWindow t window w = .ok w1) :
    w.alive = true ∧ t = .ui ∧ w.ctx.state_ = .Running ∧
    w.threadActivePumpEventsContext.get t = none ∧ window ∈ w.ctx.openWindows_ ∧
    w1 = ({ w with ctx := { w.ctx with openWindows_ := w.ctx.openWindows_.erase window } } :
      World).call (.apiCloseWindow window) := by
  unfold closeWindow at h
  simp only [bind_memberOf, bind_REQUIRE, REQUIRE_UI_THREAD, PANIC, pure, Except.pure] at h
  split_ifs at h
  simp_all

theorem notifyWindowViewChanged_ok_inv {t : Thread} {window : WindowHandle} {w w1 : World}
    (h : notifyWindowViewChanged t window w = .ok w1) :
    w.alive = true ∧ t = .ui ∧ w.ctx.state_ = .Running ∧
    w.threadActivePumpEventsContext.get t = none ∧ window ∈ w.ctx.openWindows_ ∧
    w1 = w.call (.apiNotifyWindowViewChanged window) := by
  unfold notifyWindowViewChanged at h
  simp only [bind_memberOf, bind_REQUIRE, REQUIRE_UI_THREAD, PANIC, pure, Except.pure] at h
  split_ifs at h
  simp_all

theorem pumpEventsEnter_ok_inv {t : Thread} {w w1 : World} (h : pumpEventsEnter t w = .ok w1) :
    w.alive = true ∧ t = .ui ∧ w.ctx.state_ = .Running ∧
    w.threadActivePumpEventsContext.get t = none ∧
    w1 = ({ w with
      ctx := { w.ctx with pumpEventsInQueue_ := false }
      threadActivePumpEventsContext :=
        w.threadActivePumpEventsContext.set t (some w.ctx.this) } : World).call .apiPumpEvents := by
  unfold pumpEventsEnter at h
  simp only [bind_memberOf, bind_REQUIRE, REQUIRE_UI_THREAD, PANIC, pure, Except.pure] at h
  split_ifs at h
  simp_all

theorem destroy_ok_inv {w w1 : World} (h : destroy w = .ok w1) :
    w.alive = true ∧ (w.ctx.state_ = .Pending ∨ w.ctx.state_ = .ShutdownComplete) ∧
    w1 = { (w.call .apiDestroyContext) with alive := false } := by
  unfold destroy at h
  simp only [bind_memberOf, bind_REQUIRE, REQUIRE_UI_THREAD, PANIC, pure, Except.pure] at h
  split_ifs at h
  simp_all

theorem CTX_CALLBACK_ok_inv {t : Thread} {d : CallbackData} {w : World}
    (h : CTX_CALLBACK t d w = .ok ()) :
    getContext_ d w = .ok () ∧ w.threadActivePumpEventsContext.get t = some w.ctx.this ∧
    t = .ui := by
  unfold CTX_CALLBACK CTX_CALLBACK_WITHOUT_PUMPEVENTS_CHECK at h
  cases hg : getContext_ d w with
  | error e => simp [hg, bind, Except.bind] at h
  | ok u =>
    simp only [hg, bind_ok, REQUIRE_UI_THREAD, PANIC] at h
    split_ifs at h with h1
    · simp [bind, Except.bind] at h
    · simp only [pure_bind, REQUIRE_ok_iff] at h
      simp_all

theorem shutdownComplete__ok_inv {t : Thread} {w w1 : World} (h : shutdownComplete_ t w = .ok w1) :
    t = .ui ∧ w.ctx.state_ = .Running ∧ w.ctx.shutdownPending_ = true ∧
    ∃ handler, w.ctx.eventHandler_ = some handler ∧
    w1 = { w with
      ctx := { w.ctx with state_ := .ShutdownComplete, shutdownPending_ := false,
                          self_ := false, eventHandler_ := none }
      taskQueue := w.taskQueue ++ [.onViceContextShutdownComplete handler] } := by
  unfold shutdownComplete_ at h
  simp only [bind_REQUIRE, REQUIRE_UI_THREAD, PANIC, pure, Except.pure] at h
  split_ifs at h with h1 h2 h3 h4
  cases he : w.ctx.eventHandler_ with
  | none => simp [he] at h4
  | some handler =>
    simp [derefEventHandler, he, bind, Except.bind, postTask] at h
    simp_all

theorem callbacks_eventNotify_ok_inv {d : CallbackData} {w w1 : World}
    (h : callbacks_eventNotify d w = .ok w1) :
    getContext_ d w = .ok () ∧
    w1 = (if w.ctx.pumpEventsInQueue_ then
        { w with ctx := { w.ctx with pumpEventsInQueue_ := true } }
      else
        { w with ctx := { w.ctx with pumpEventsInQueue_ := true }
                 taskQueue := w.taskQueue ++ [.pumpEvents_] }) := by
  unfold callbacks_eventNotify CTX_CALLBACK_WITHOUT_PUMPEVENTS_CHECK at h
  cases hg : getContext_ d w with
  | error e => simp [hg, bind, Except.bind] at h
  | ok u =>
    simp only [hg, bind_ok, pure, Except.pure, postTask] at h
    cases hq : w.ctx.pumpEventsInQueue_ <;> simp_all

theorem callbacks_shutdownComplete_ok_inv {t : Thread} {d : CallbackData} {w w1 : World}
    (h : callbacks_shutdownComplete t d w = .ok w1) :
    CTX_CALLBACK t d w = .ok () ∧ shutdownComplete_ t w = .ok w1 := by
  unfold callbacks_shutdownComplete at h
  cases hc : CTX_CALLBACK t d w with
  | error e => simp [hc, bind, Except.bind] at h
  | ok u => simpa [hc, bind_ok] using h

theorem callbacks_createWindow_ok_inv {t : Thread} {d : CallbackData} {msgIsNull : Bool}
    {window : WindowHandle} {reason : Option String} {mallocOk : Bool} {w w1 : World}
    {r : CreateWindowReturn}
    (h : callbacks_createWindow t d msgIsNull window reason mallocOk w = .ok (w1, r)) :
    CTX_CALLBACK t d w = .ok () ∧ ∃ handler, w.ctx.eventHandler_ = some handler ∧
    ((window ≠ 0 ∨ msgIsNull = true) ∧ window ∉ w.ctx.openWindows_ ∧
      w1 = { (w.call (.onViceContextCreateWindowRequest handler)) with
        ctx := { w.ctx with openWindows_ := insert window w.ctx.openWindows_ } } ∧
      r = { window := window, msg := none } ∨
     (window = 0 ∧ msgIsNull = false) ∧ mallocOk = true ∧
      w1 = w.call (.onViceContextCreateWindowRequest handler) ∧
      r = { window := 0, msg := some ((reason.getD "Unknown reason").toList ++ [NUL]) }) := by
  unfold callbacks_createWindow at h
  cases hc : CTX_CALLBACK t d w with
  | error e => simp [hc, bind, Except.bind] at h
  | ok u =>
    refine ⟨rfl, ?_⟩
    cases he : w.ctx.eventHandler_ with
    | none => simp [hc, derefEventHandler, he, bind, Except.bind] at h
    | some handler =>
      refine ⟨handler, rfl, ?_⟩
      simp only [hc, bind_ok, derefEventHandler, he, createMallocString, bind_REQUIRE, PANIC,
        pure, Except.pure] at h
      by_cases h1 : (window != 0 || msgIsNull) = true
      · rw [if_pos h1] at h
        by_cases h2 : decide (window ∉ (w.call (.onViceContextCreateWindowRequest handler)).ctx.openWindows_) = true
        · rw [if_pos h2] at h
          simp only [Except.ok.injEq, Prod.mk.injEq] at h
          left
          refine ⟨by simpa using h1, by simpa [World.call] using h2, h.1.symm, h.2.symm⟩
        · rw [if_neg h2] at h
          cases h
      · rw [if_neg h1] at h
        cases mallocOk with
        | false => simp [bind, Except.bind] at h
        | true =>
          simp only [if_true, bind_ok, Except.ok.injEq, Prod.mk.injEq] at h
          right
          refine ⟨by simpa using h1, rfl, h.1.symm, h.2.symm⟩

theorem callbacks_closeWindow_ok_inv {t : Thread} {d : CallbackData} {window : WindowHandle}
    {w w1 : World} (h : callbacks_closeWindow t d window w = .ok w1) :
    CTX_CALLBACK t d w = .ok () ∧ window ∈ w.ctx.openWindows_ ∧
    ∃ handler, w.ctx.eventHandler_ = some handler ∧
    w1 = ({ w with ctx := { w.ctx with openWindows_ := w.ctx.openWindows_.erase window } } :
      World).call (.onViceContextCloseWindow handler window) := by
  unfold callbacks_closeWindow at h
  cases hc : CTX_CALLBACK t d w with
  | error e => simp [hc, bind, Except.bind] at h
  | ok u =>
    simp only [hc, bind_ok, bind_REQUIRE, PANIC, pure, Except.pure] at h
    split_ifs at h with h1
    cases he : w.ctx.eventHandler_ with
    | none => simp [derefEventHandler, he, bind, Except.bind] at h
    | some handler =>
      simp only [derefEventHandler, he, bind_ok, Except.ok.injEq] at h
      subst h
      exact ⟨rfl, by simpa using h1, handler, rfl, by simp [he]⟩

theorem callbacks_emptyBody_ok_inv {t : Thread} {d : CallbackData} {w w1 : World}
    (h : callbacks_emptyBody t d w = .ok w1) : CTX_CALLBACK t d w = .ok () ∧ w1 = w := by
  unfold callbacks_emptyBody at h
  cases hc : CTX_CALLBACK t d w with
  | error e => simp [hc, bind, Except.bind] at h
  | ok u =>
    simp only [hc, bind_ok, pure, Except.pure, Except.ok.injEq] at h
    exact ⟨rfl, h.symm⟩

theorem putImageSink_ctx {st st1 : World × Bool} {c : SinkCall}
    (h : putImageSink st c = .ok st1) :
    st1.1.ctx = st.1.ctx ∧ st1.1.alive = st.1.alive ∧
    st1.1.threadActivePumpEventsContext = st.1.threadActivePumpEventsContext ∧
    st1.1.taskQueue = st.1.taskQueue := by
  unfold putImageSink at h
  simp only [bind_REQUIRE, PANIC, pure, Except.pure] at h
  split_ifs at h
  simp only [Except.ok.injEq] at h
  subst h
  simp [World.call]

theorem runSink_ctx {sink : List SinkCall} {st st1 : World × Bool}
    (h : runSink st sink = .ok st1) :
    st1.1.ctx = st.1.ctx ∧ st1.1.alive = st.1.alive ∧
    st1.1.threadActivePumpEventsContext = st.1.threadActivePumpEventsContext ∧
    st1.1.taskQueue = st.1.taskQueue := by
  induction sink generalizing st with
  | nil =>
    simp only [runSink, Except.ok.injEq] at h
    subst h
    simp
  | cons c rest ih =>
    simp only [runSink] at h
    cases hp : putImageSink st c with
    | error e => simp [hp] at h
    | ok st2 =>
      simp only [hp] at h
      have h2 := ih h
      have h3 := putImageSink_ctx hp
      exact ⟨h2.1.trans h3.1, h2.2.1.trans h3.2.1, h2.2.2.1.trans h3.2.2.1,
        h2.2.2.2.trans h3.2.2.2⟩

theorem callbacks_fetchWindowImage_ok_inv {t : Thread} {d : CallbackData}
    {window : WindowHandle} {sink : List SinkCall} {w w1 : World}
    (h : callbacks_fetchWindowImage t d window sink w = .ok w1) :
    CTX_CALLBACK t d w = .ok () ∧ window ∈ w.ctx.openWindows_ ∧ w1.ctx = w.ctx ∧
    w1.alive = w.alive ∧
    w1.threadActivePumpEventsContext = w.threadActivePumpEventsContext ∧
    w1.taskQueue = w.taskQueue := by
  unfold callbacks_fetchWindowImage at h
  cases hc : CTX_CALLBACK t d w with
  | error e => simp [hc, bind, Except.bind] at h
  | ok u =>
    simp only [hc, bind_ok, bind_REQUIRE, PANIC] at h
    split_ifs at h with h1
    cases he : w.ctx.eventHandler_ with
    | none => simp [derefEventHandler, he, bind, Except.bind] at h
    | some handler =>
      simp only [derefEventHandler, he, bind_ok] at h
      cases hr : runSink (w.call (.onViceContextFetchWindowImage handler window), false) sink with
      | error e => simp [hr, bind, Except.bind] at h
      | ok st =>
        obtain ⟨w2, called⟩ := st
        simp only [hr, bind_ok, bind_REQUIRE, PANIC, pure, Except.pure] at h
        split_ifs at h
        simp only [Except.ok.injEq] at h
        subst h
        have h3 := runSink_ctx hr
        exact ⟨rfl, by simpa using h1, h3.1, h3.2.1, h3.2.2.1, h3.2.2.2⟩

theorem invoke_state {t : Thread} {d : CallbackData} {cb : Callback} {w w1 : World}
    (h : invoke t d w cb = .ok w1) :
    w1.ctx.state_ = w.ctx.state_ ∨
    (w.ctx.state_ = .Running ∧ w1.ctx.state_ = .ShutdownComplete ∧ cb = .shutdownComplete) := by
  cases cb with
  | eventNotify =>
    have h1 := (callbacks_eventNotify_ok_inv h).2
    left
    subst h1
    split <;> rfl
  | shutdownComplete =>
    obtain ⟨_, h2⟩ := callbacks_shutdownComplete_ok_inv h
    obtain ⟨_, h3, _, handler, _, h4⟩ := shutdownComplete__ok_inv h2
    right
    subst h4
    exact ⟨h3, rfl, rfl⟩
  | createWindow m x r k =>
    simp only [invoke] at h
    cases hc : callbacks_createWindow t d m x r k w with
    | error e => simp [hc, Except.map] at h
    | ok p =>
      obtain ⟨w2, ret⟩ := p
      simp only [hc, Except.map, Except.ok.injEq] at h
      subst h
      obtain ⟨_, handler, _, h5⟩ := callbacks_createWindow_ok_inv hc
      left
      rcases h5 with ⟨_, _, h6, _⟩ | ⟨_, _, h6, _⟩ <;> (subst h6; rfl)
  | closeWindow x =>
    obtain ⟨_, _, handler, _, h2⟩ := callbacks_closeWindow_ok_inv h
    left
    subst h2
    rfl
  | fetchWindowImage x sink =>
    have h2 := (callbacks_fetchWindowImage_ok_inv h).2.2.1
    left
    rw [h2]
  | resizeWindow _ _ _ | mouseDown _ _ _ _ | mouseUp _ _ _ _ | mouseMove _ _ _
  | mouseDoubleClick _ _ _ _ | mouseWheel _ _ _ _ _ | mouseLeave _ _ _ | keyDown _ _
  | keyUp _ _ | loseFocus _ =>
    have h2 := (callbacks_emptyBody_ok_inv h).2
    left
    rw [h2]

theorem step_state {w w1 : World} {s : Step} (h : step w s = .ok w1) :
    w1.ctx.state_ = w.ctx.state_ ∨
    (w.ctx.state_ = .Pending ∧ w1.ctx.state_ = .Running ∧ ∃ t eh, s = .start t eh) ∨
    (w.ctx.state_ = .Running ∧ w1.ctx.state_ = .ShutdownComplete ∧
      ∃ t d, s = .callback t d .shutdownComplete) := by
  cases s with
  | start t eh =>
    obtain ⟨_, _, h3, _, h5⟩ := start_ok_inv h
    right; left
    subst h5
    exact ⟨h3, rfl, t, eh, rfl⟩
  | shutdown t =>
    obtain ⟨_, _, _, _, h5⟩ := shutdown_ok_inv h
    left; subst h5; rfl
  | closeWindow t x =>
    obtain ⟨_, _, _, _, _, h5⟩ := closeWindow_ok_inv h
    left; subst h5; rfl
  | notifyWindowViewChanged t x =>
    obtain ⟨_, _, _, _, _, h5⟩ := notifyWindowViewChanged_ok_inv h
    left; subst h5; rfl
  | pumpEventsEnter t =>
    obtain ⟨_, _, _, _, h5⟩ := pumpEventsEnter_ok_inv h
    left; subst h5; rfl
  | pumpEventsLeave t =>
    simp only [step, Except.ok.injEq] at h
    left; subst h; rfl
  | destroy =>
    obtain ⟨_, _, h5⟩ := destroy_ok_inv h
    left; subst h5; rfl
  | callback t d cb =>
    rcases invoke_state (show invoke t d w cb = .ok w1 from h) with h1 | ⟨h1, h2, h3⟩
    · exact Or.inl h1
    · exact Or.inr (Or.inr ⟨h1, h2, t, d, by rw [h3]⟩)

theorem step_rank {w w1 : World} {s : Step} (h : step w s = .ok w1) :
    w.ctx.state_.rank ≤ w1.ctx.state_.rank := by
  rcases step_state h with h1 | ⟨h1, h2, _⟩ | ⟨h1, h2, _⟩
  · rw [h1]
  · rw [h1, h2]; decide
  · rw [h1, h2]; decide

theorem run_cons_ok_inv {w w2 : World} {s : Step} {rest : List Step}
    (h : run w (s :: rest) = .ok w2) : ∃ w1, step w s = .ok w1 ∧ run w1 rest = .ok w2 := by
  simp only [run] at h
  cases hs : step w s with
  | error e => simp [hs] at h
  | ok w1 => exact ⟨w1, rfl, by simpa [hs] using h⟩

theorem run_rank {steps : List Step} {w w1 : World} (h : run w steps = .ok w1) :
    w.ctx.state_.rank ≤ w1.ctx.state_.rank := by
  induction steps generalizing w with
  | nil =>
    simp only [run, Except.ok.injEq] at h
    rw [h]
  | cons s rest ih =>
    obtain ⟨w2, h1, h2⟩ := run_cons_ok_inv h
    exact le_trans (step_rank h1) (ih h2)

theorem step_keeps_shutdownPending {w w1 : World} {s : Step} (h : step w s = .ok w1)
    (hs : w.ctx.state_ = .Running) (hp : w.ctx.shutdownPending_ = true) (ha : w.alive = true)
    (hn : ∀ t d, s ≠ .callback t d .shutdownComplete) :
    w1.ctx.state_ = .Running ∧ w1.ctx.shutdownPending_ = true ∧ w1.alive = true := by
  cases s with
  | start t eh =>
    obtain ⟨_, _, h3, _, _⟩ := start_ok_inv h
    rw [hs] at h3; cases h3
  | shutdown t =>
    obtain ⟨_, _, _, h4, _⟩ := shutdown_ok_inv h
    rw [hp] at h4; cases h4
  | closeWindow t x =>
    obtain ⟨_, _, _, _, _, h5⟩ := closeWindow_ok_inv h
    subst h5; exact ⟨hs, hp, ha⟩
  | notifyWindowViewChanged t x =>
    obtain ⟨_, _, _, _, _, h5⟩ := notifyWindowViewChanged_ok_inv h
    subst h5; exact ⟨hs, hp, ha⟩
  | pumpEventsEnter t =>
    obtain ⟨_, _, _, _, h5⟩ := pumpEventsEnter_ok_inv h
    subst h5; exact ⟨hs, hp, ha⟩
  | pumpEventsLeave t =>
    simp only [step, Except.ok.injEq] at h
    subst h; exact ⟨hs, hp, ha⟩
  | destroy =>
    obtain ⟨_, h2, _⟩ := destroy_ok_inv h
    rw [hs] at h2
    rcases h2 with h2 | h2 <;> cases h2
  | callback t d cb =>
    have h : invoke t d w cb = .ok w1 := h
    cases cb with
    | eventNotify =>
      have h1 := (callbacks_eventNotify_ok_inv h).2
      subst h1
      split <;> exact ⟨hs, hp, ha⟩
    | shutdownComplete => exact absurd rfl (hn t d)
    | createWindow m x r k =>
      simp only [invoke] at h
      cases hc : callbacks_createWindow t d m x r k w with
      | error e => simp [hc, Except.map] at h
      | ok p =>
        obtain ⟨w2, ret⟩ := p
        simp only [hc, Except.map, Except.ok.injEq] at h
        subst h
        obtain ⟨_, handler, _, h5⟩ := callbacks_createWindow_ok_inv hc
        rcases h5 with ⟨_, _, h6, _⟩ | ⟨_, _, h6, _⟩ <;> (subst h6; exact ⟨hs, hp, ha⟩)
    | closeWindow x =>
      obtain ⟨_, _, handler, _, h2⟩ := callbacks_closeWindow_ok_inv h
      subst h2; exact ⟨hs, hp, ha⟩
    | fetchWindowImage x sink =>
      obtain ⟨_, _, h2, h3, _⟩ := callbacks_fetchWindowImage_ok_inv h
      rw [h2, h3]; exact ⟨hs, hp, ha⟩
    | resizeWindow _ _ _ | mouseDown _ _ _ _ | mouseUp _ _ _ _ | mouseMove _ _ _
    | mouseDoubleClick _ _ _ _ | mouseWheel _ _ _ _ _ | mouseLeave _ _ _ | keyDown _ _
    | keyUp _ _ | loseFocus _ =>
      have h2 := (callbacks_emptyBody_ok_inv h).2
      rw [h2]; exact ⟨hs, hp, ha⟩

theorem run_keeps_shutdownPending {steps : List Step} {w w1 : World} (h : run w steps = .ok w1)
    (hs : w.ctx.state_ = .Running) (hp : w.ctx.shutdownPending_ = true) (ha : w.alive = true)
    (hn : ∀ s ∈ steps, ∀ t d, s ≠ .callback t d .shutdownComplete) :
    w1.ctx.state_ = .Running ∧ w1.ctx.shutdownPending_ = true ∧ w1.alive = true := by
  induction steps generalizing w with
  | nil =>
    simp only [run, Except.ok.injEq] at h
    subst h; exact ⟨hs, hp, ha⟩
  | cons s rest ih =>
    obtain ⟨w2, h1, h2⟩ := run_cons_ok_inv h
    obtain ⟨hs2, hp2, ha2⟩ :=
      step_keeps_shutdownPending h1 hs hp ha (hn s (List.mem_cons_self _ _))
    exact ih h2 hs2 hp2 ha2 (fun s1 hmem => hn s1 (List.mem_cons_of_mem _ hmem))

theorem shutdown_panics_of_pending (w : World) (ha : w.alive = true)
    (h : ¬ (w.ctx.state_ = .Running ∧ w.ctx.shutdownPending_ = false)) :
    isPanic (shutdown .ui w) = true := by
  unfold shutdown
  simp only [bind_memberOf, bind_REQUIRE, REQUIRE_UI_THREAD, pure, Except.pure]
  by_cases hs : w.ctx.state_ = .Running
  · have hp : w.ctx.shutdownPending_ = true := by
      cases hq : w.ctx.shutdownPending_
      · exact absurd ⟨hs, hq⟩ h
      · rfl
    simp [ha, hs, hp, PANIC, isPanic]
  · simp [ha, hs, PANIC, isPanic]

theorem getContext__alive (d : CallbackData) (w : World) (ha : w.alive = true) :
    getContext_ d w = .ok () ∨ isPanic (getContext_ d w) = true := by
  unfold getContext_
  cases d with
  | null => right; rfl
  | context =>
    cases hn : w.ndebug
    · cases hs : w.ctx.state_ <;> simp [ha, hs, REQUIRE, PANIC, isPanic]
    · simp [memberOf, ha]

theorem CTX_CALLBACK_alive (t : Thread) (d : CallbackData) (w : World) (ha : w.alive = true) :
    CTX_CALLBACK t d w = .ok () ∨ isPanic (CTX_CALLBACK t d w) = true := by
  unfold CTX_CALLBACK CTX_CALLBACK_WITHOUT_PUMPEVENTS_CHECK
  rcases getContext__alive d w ha with hg | hg
  · rw [hg]
    simp only [bind_ok]
    split_ifs with h1
    · right; rfl
    · cases t <;> simp [REQUIRE_UI_THREAD, REQUIRE, PANIC, isPanic]
  · right
    cases hgc : getContext_ d w with
    | ok u => rw [hgc] at hg; simp [isPanic] at hg
    | error e =>
      rw [hgc] at hg
      cases e with
      | panic msg => rfl
      | undefinedBehaviour what => simp [isPanic] at hg

theorem isPanic_bind_of_isPanic {α β : Type} (x : Except Fault α) (f : α → Except Fault β)
    (h : isPanic x = true) : isPanic (x >>= f) = true := by
  cases x with
  | ok a => simp [isPanic] at h
  | error e =>
    cases e with
    | panic msg => rfl
    | undefinedBehaviour what => simp [isPanic] at h

theorem step_keeps_closed {w w1 : World} {s : Step} {x : WindowHandle}
    (h : step w s = .ok w1) (hx : x ∉ w.ctx.openWindows_) (hn : s.creates x = false) :
    x ∉ w1.ctx.openWindows_ := by
  cases s with
  | start t eh =>
    obtain ⟨_, _, _, _, h5⟩ := start_ok_inv h
    subst h5; exact hx
  | shutdown t =>
    obtain ⟨_, _, _, _, h5⟩ := shutdown_ok_inv h
    subst h5; exact hx
  | closeWindow t y =>
    obtain ⟨_, _, _, _, _, h5⟩ := closeWindow_ok_inv h
    subst h5
    exact fun hmem => hx (Finset.mem_of_mem_erase hmem)
  | notifyWindowViewChanged t y =>
    obtain ⟨_, _, _, _, _, h5⟩ := notifyWindowViewChanged_ok_inv h
    subst h5; exact hx
  | pumpEventsEnter t =>
    obtain ⟨_, _, _, _, h5⟩ := pumpEventsEnter_ok_inv h
    subst h5; exact hx
  | pumpEventsLeave t =>
    simp only [step, Except.ok.injEq] at h
    subst h; exact hx
  | destroy =>
    obtain ⟨_, _, h5⟩ := destroy_ok_inv h
    subst h5; exact hx
  | callback t d cb =>
    have h : invoke t d w cb = .ok w1 := h
    cases cb with
    | eventNotify =>
      have h1 := (callbacks_eventNotify_ok_inv h).2
      subst h1
      split <;> exact hx
    | shutdownComplete =>
      obtain ⟨_, h2⟩ := callbacks_shutdownComplete_ok_inv h
      obtain ⟨_, _, _, handler, _, h4⟩ := shutdownComplete__ok_inv h2
      subst h4; exact hx
    | createWindow m y r k =>
      simp only [invoke] at h
      cases hc : callbacks_createWindow t d m y r k w with
      | error e => simp [hc, Except.map] at h
      | ok p =>
        obtain ⟨w2, ret⟩ := p
        simp only [hc, Except.map, Except.ok.injEq] at h
        subst h
        obtain ⟨_, handler, _, h5⟩ := callbacks_createWindow_ok_inv hc
        rcases h5 with ⟨_, _, h6, _⟩ | ⟨_, _, h6, _⟩
        · subst h6
          have hyx : y ≠ x := by simpa [Step.creates] using hn
          intro hmem
          rcases Finset.mem_insert.mp hmem with h7 | h7
          · exact hyx h7.symm
          · exact hx h7
        · subst h6; exact hx
    | closeWindow y =>
      obtain ⟨_, _, handler, _, h2⟩ := callbacks_closeWindow_ok_inv h
      subst h2
      exact fun hmem => hx (Finset.mem_of_mem_erase hmem)
    | fetchWindowImage y sink =>
      obtain ⟨_, _, h2, _⟩ := callbacks_fetchWindowImage_ok_inv h
      rw [h2]; exact hx
    | resizeWindow _ _ _ | mouseDown _ _ _ _ | mouseUp _ _ _ _ | mouseMove _ _ _
    | mouseDoubleClick _ _ _ _ | mouseWheel _ _ _ _ _ | mouseLeave _ _ _ | keyDown _ _
    | keyUp _ _ | loseFocus _ =>
      have h2 := (callbacks_emptyBody_ok_inv h).2
      rw [h2]; exact hx

theorem run_keeps_closed {steps : List Step} {w w1 : World} {x : WindowHandle}
    (h : run w steps = .ok w1) (hx : x ∉ w.ctx.openWindows_)
    (hn : ∀ s ∈ steps, s.creates x = false) : x ∉ w1.ctx.openWindows_ := by
  induction steps generalizing w with
  | nil =>
    simp only [run, Except.ok.injEq] at h
    subst h; exact hx
  | cons s rest ih =>
    obtain ⟨w2, h1, h2⟩ := run_cons_ok_inv h
    exact ih h2 (step_keeps_closed h1 hx (hn s (List.mem_cons_self _ _)))
      (fun s1 hmem => hn s1 (List.mem_cons_of_mem _ hmem))

theorem closeWindow_panics_of_not_open (t : Thread) (x : WindowHandle) (w : World)
    (ha : w.alive = true) (hx : x ∉ w.ctx.openWindows_) :
    isPanic (closeWindow t x w) = true := by
  unfold closeWindow
  simp only [bind_memberOf, bind_REQUIRE, REQUIRE_UI_THREAD, pure, Except.pure]
  simp only [ha, if_true, decide_eq_true_eq, hx, if_false]
  split_ifs <;> rfl

theorem notifyWindowViewChanged_panics_of_not_open (t : Thread) (x : WindowHandle) (w : World)
    (ha : w.alive = true) (hx : x ∉ w.ctx.openWindows_) :
    isPanic (notifyWindowViewChanged t x w) = true := by
  unfold notifyWindowViewChanged
  simp only [bind_memberOf, bind_REQUIRE, REQUIRE_UI_THREAD, pure, Except.pure]
  simp only [ha, if_true, decide_eq_true_eq, hx, if_false]
  split_ifs <;> rfl

theorem callbacks_closeWindow_panics_of_not_open (t : Thread) (d : CallbackData)
    (x : WindowHandle) (w : World) (ha : w.alive = true) (hx : x ∉ w.ctx.openWindows_) :
    isPanic (callbacks_closeWindow t d x w) = true := by
  unfold callbacks_closeWindow
  rcases CTX_CALLBACK_alive t d w ha with hc | hc
  · rw [hc]
    simp only [bind_ok, bind_REQUIRE, decide_eq_true_eq, hx, if_false]
    rfl
  · exact isPanic_bind_of_isPanic _ _ hc

theorem callbacks_fetchWindowImage_panics_of_not_open (t : Thread) (d : CallbackData)
    (x : WindowHandle) (sink : List SinkCall) (w : World) (ha : w.alive = true)
    (hx : x ∉ w.ctx.openWindows_) :
    isPanic (callbacks_fetchWindowImage t d x sink w) = true := by
  unfold callbacks_fetchWindowImage
  rcases CTX_CALLBACK_alive t d w ha with hc | hc
  · rw [hc]
    simp only [bind_ok, bind_REQUIRE, decide_eq_true_eq, hx, if_false]
    rfl
  · exact isPanic_bind_of_isPanic _ _ hc

theorem exists_ok_of_toBool {α : Type} (r : Except Fault α) (h : r.toBool = true) :
    ∃ a, r = .ok a := by
  cases r with
  | ok a => exact ⟨a, rfl⟩
  | error e => simp [Except.toBool] at h

theorem isPanic_map {α β : Type} (f : α → β) (x : Except Fault α) :
    isPanic (x.map f) = isPanic x := by
  cases x with
  | ok a => rfl
  | error e => cases e <;> rfl

theorem not_ok_of_isPanic {α : Type} {x : Except Fault α} (h : isPanic x = true) (a : α) :
    x ≠ .ok a := by
  intro hx
  rw [hx] at h
  simp [isPanic] at h

theorem CTX_CALLBACK_panics_of_marker (t : Thread) (d : CallbackData) (w : World)
    (ha : w.alive = true) (hm : w.threadActivePumpEventsContext.get t ≠ some w.ctx.this) :
    isPanic (CTX_CALLBACK t d w) = true := by
  rcases CTX_CALLBACK_alive t d w ha with hc | hc
  · exact absurd (CTX_CALLBACK_ok_inv hc).2.1 hm
  · exact hc

theorem invoke_panics_of_CTX_CALLBACK (t : Thread) (d : CallbackData) (cb : Callback) (w : World)
    (hcb : cb ≠ .eventNotify) (hc : isPanic (CTX_CALLBACK t d w) = true) :
    isPanic (invoke t d w cb) = true := by
  cases cb with
  | eventNotify => exact absurd rfl hcb
  | shutdownComplete =>
    exact isPanic_bind_of_isPanic _ _ hc
  | createWindow m x r k =>
    simp only [invoke, isPanic_map]
    exact isPanic_bind_of_isPanic _ _ hc
  | closeWindow x => exact isPanic_bind_of_isPanic _ _ hc
  | fetchWindowImage x sink => exact isPanic_bind_of_isPanic _ _ hc
  | resizeWindow _ _ _ | mouseDown _ _ _ _ | mouseUp _ _ _ _ | mouseMove _ _ _
  | mouseDoubleClick _ _ _ _ | mouseWheel _ _ _ _ _ | mouseLeave _ _ _ | keyDown _ _
  | keyUp _ _ | loseFocus _ =>
    exact isPanic_bind_of_isPanic _ _ hc

theorem getContext__running (w : World) (ha : w.alive = true) (hs : w.ctx.state_ = .Running) :
    getContext_ .context w = .ok () := by
  unfold getContext_
  cases hn : w.ndebug <;> simp [ha, hs, memberOf, REQUIRE]

theorem invoke_marker {t : Thread} {d : CallbackData} {cb : Callback} {w w1 : World}
    (h : invoke t d w cb = .ok w1) :
    w1.threadActivePumpEventsContext = w.threadActivePumpEventsContext := by
  cases cb with
  | eventNotify =>
    have h1 := (callbacks_eventNotify_ok_inv h).2
    subst h1
    split <;> rfl
  | shutdownComplete =>
    obtain ⟨_, h2⟩ := callbacks_shutdownComplete_ok_inv h
    obtain ⟨_, _, _, handler, _, h4⟩ := shutdownComplete__ok_inv h2
    subst h4; rfl
  | createWindow m x r k =>
    simp only [invoke] at h
    cases hc : callbacks_createWindow t d m x r k w with
    | error e => simp [hc, Except.map] at h
    | ok p =>
      obtain ⟨w2, ret⟩ := p
      simp only [hc, Except.map, Except.ok.injEq] at h
      subst h
      obtain ⟨_, handler, _, h5⟩ := callbacks_createWindow_ok_inv hc
      rcases h5 with ⟨_, _, h6, _⟩ | ⟨_, _, h6, _⟩ <;> (subst h6; rfl)
  | closeWindow x =>
    obtain ⟨_, _, handler, _, h2⟩ := callbacks_closeWindow_ok_inv h
    subst h2; rfl
  | fetchWindowImage x sink =>
    exact (callbacks_fetchWindowImage_ok_inv h).2.2.2.2.1
  | resizeWindow _ _ _ | mouseDown _ _ _ _ | mouseUp _ _ _ _ | mouseMove _ _ _
  | mouseDoubleClick _ _ _ _ | mouseWheel _ _ _ _ _ | mouseLeave _ _ _ | keyDown _ _
  | keyUp _ _ | loseFocus _ =>
    rw [(callbacks_emptyBody_ok_inv h).2]

theorem step_keeps_marker {w w1 : World} {s : Step} {p : Ptr} (h : step w s = .ok w1)
    (hs : s ≠ .pumpEventsLeave .ui) (hm : w.threadActivePumpEventsContext.get .ui = some p) :
    w1.threadActivePumpEventsContext.get .ui = some p := by
  cases s with
  | start t eh =>
    obtain ⟨_, _, _, _, h5⟩ := start_ok_inv h
    subst h5; exact hm
  | shutdown t =>
    obtain ⟨_, _, _, _, h5⟩ := shutdown_ok_inv h
    subst h5; exact hm
  | closeWindow t y =>
    obtain ⟨_, _, _, _, _, h5⟩ := closeWindow_ok_inv h
    subst h5; exact hm
  | notifyWindowViewChanged t y =>
    obtain ⟨_, _, _, _, _, h5⟩ := notifyWindowViewChanged_ok_inv h
    subst h5; exact hm
  | pumpEventsEnter t =>
    obtain ⟨_, h2, _, h4, _⟩ := pumpEventsEnter_ok_inv h
    subst h2
    rw [hm] at h4
    cases h4
  | pumpEventsLeave t =>
    cases t with
    | ui => exact absurd rfl hs
    | other =>
      simp only [step, Except.ok.injEq] at h
      subst h; exact hm
  | destroy =>
    obtain ⟨_, _, h5⟩ := destroy_ok_inv h
    subst h5; exact hm
  | callback t d cb =>
    have h2 := invoke_marker (show invoke t d w cb = .ok w1 from h)
    rw [h2]; exact hm

theorem run_keeps_marker {steps : List Step} {w w1 : World} {p : Ptr} (h : run w steps = .ok w1)
    (hs : ∀ s ∈ steps, s ≠ .pumpEventsLeave .ui)
    (hm : w.threadActivePumpEventsContext.get .ui = some p) :
    w1.threadActivePumpEventsContext.get .ui = some p := by
  induction steps generalizing w with
  | nil =>
    simp only [run, Except.ok.injEq] at h
    subst h; exact hm
  | cons s rest ih =>
    obtain ⟨w2, h1, h2⟩ := run_cons_ok_inv h
    exact ih h2 (fun s1 hmem => hs s1 (List.mem_cons_of_mem _ hmem))
      (step_keeps_marker h1 (hs s (List.mem_cons_self _ _)) hm)

theorem pumpEventsEnter_panics (t : Thread) (w : World) (ha : w.alive = true)
    (h : ¬ (w.ctx.state_ = .Running ∧ w.threadActivePumpEventsContext.get t = none)) :
    isPanic (pumpEventsEnter t w) = true := by
  unfold pumpEventsEnter
  simp only [bind_memberOf, bind_REQUIRE, REQUIRE_UI_THREAD, pure, Except.pure, ha, if_true]
  by_cases hs : w.ctx.state_ = .Running
  · have hm : (w.threadActivePumpEventsContext.get t == none) = false := by
      have : w.threadActivePumpEventsContext.get t ≠ none := fun hq => h ⟨hs, hq⟩
      simpa using this
    simp only [hm]
    split_ifs <;> first | rfl | contradiction
  · have hs2 : (w.ctx.state_ == State.Running) = false := by simpa using hs
    simp only [hs2]
    split_ifs <;> first | rfl | contradiction

theorem firstMissing_eq_none_iff (lib : Library) (names : List String) :
    firstMissing lib names = none ↔
      ∀ name ∈ names, lib.symbols ("vicePluginAPI_" ++ name) = true := by
  induction names with
  | nil => simp [firstMissing]
  | cons name rest ih =>
    simp only [firstMissing, List.mem_cons, forall_eq_or_imp]
    by_cases h : lib.symbols ("vicePluginAPI_" ++ name) = true
    · simp [h, ih]
    · simp [h]

theorem dlclose_after_open (p : Process) :
    dlclose { p with openHandles := p.openHandles + 1 } = (0, p) := by
  cases p
  simp [dlclose]

theorem runOptionDocs_eq_append (ret items : List OptionDocsItem) :
    runOptionDocs ret items = ret ++ items := by
  induction items generalizing ret with
  | nil => simp [runOptionDocs]
  | cons c rest ih =>
    cases c
    simp [runOptionDocs, optionDocsCollector, ih]

theorem callbacks_eventNotify_eq_halves (d : CallbackData) (w : World) :
    callbacks_eventNotify d w =
      (eventNotifyExchange d w).map (fun p => eventNotifyPost p.2 p.1) := by
  unfold callbacks_eventNotify eventNotifyExchange eventNotifyPost
  cases hc : CTX_CALLBACK_WITHOUT_PUMPEVENTS_CHECK d w with
  | error e => rfl
  | ok u =>
    cases hq : w.ctx.pumpEventsInQueue_ <;>
      simp [bind, Except.bind, pure, Except.pure, Except.map, postTask, hq]

theorem eventNotifyExchange_running (w : World) (ha : w.alive = true)
    (hs : w.ctx.state_ = .Running) :
    eventNotifyExchange .context w =
      .ok ({ w with ctx := { w.ctx with pumpEventsInQueue_ := true } },
        w.ctx.pumpEventsInQueue_) := by
  unfold eventNotifyExchange CTX_CALLBACK_WITHOUT_PUMPEVENTS_CHECK
  rw [getContext__running w ha hs]
  rfl

theorem notifyStep_inv (w0 : World) (k : Nat) (st : World × Notifiers) (posted : Nat)
    (a : NotifyStep) (h : NotifyInv w0 k st posted) :
    ∃ st1 posted1, notifyStep .context st a = .ok st1 ∧ NotifyInv w0 k st1 posted1 := by
  obtain ⟨w, n⟩ := st
  obtain ⟨ha, hs, hq, hc, hz, hk⟩ := h
  simp only at ha hs hq hc hz hk
  cases a with
  | exchange =>
    by_cases hr : n.ready = 0
    · exact ⟨(w, n), posted, by simp [notifyStep, hr], ha, hs, hq, hc, hz, hk⟩
    · cases hf : w.ctx.pumpEventsInQueue_ with
      | false =>
        obtain ⟨h1, h2, h3⟩ := hz hf
        refine ⟨({ w with ctx := { w.ctx with pumpEventsInQueue_ := true } },
          { n with ready := n.ready - 1, holdingFalse := n.holdingFalse + 1 }), posted, ?_,
          ha, hs, hq, ?_, ?_, ?_⟩
        · simp [notifyStep, hr, eventNotifyExchange_running w ha hs, hf, bind, Except.bind,
            pure, Except.pure]
        · simp [hf] at hc
          simp
          omega
        · intro hcontra
          cases hcontra
        · simp only
          omega
      | true =>
        refine ⟨({ w with ctx := { w.ctx with pumpEventsInQueue_ := true } },
          { n with ready := n.ready - 1, holdingTrue := n.holdingTrue + 1 }), posted, ?_,
          ha, hs, hq, ?_, ?_, ?_⟩
        · simp [notifyStep, hr, eventNotifyExchange_running w ha hs, hf, bind, Except.bind,
            pure, Except.pure]
        · simp only [hf] at hc
          simpa using hc
        · intro hcontra
          cases hcontra
        · simp only
          omega
  | finish old =>
    cases old with
    | false =>
      by_cases hr : n.holdingFalse = 0
      · exact ⟨(w, n), posted, by simp [notifyStep, hr], ha, hs, hq, hc, hz, hk⟩
      · have hflag : w.ctx.pumpEventsInQueue_ = true := by
          cases hf : w.ctx.pumpEventsInQueue_
          · exact absurd (hz hf).1 hr
          · rfl
        refine ⟨(eventNotifyPost false w,
          { n with holdingFalse := n.holdingFalse - 1, returned := n.returned + 1 }),
          posted + 1, by simp [notifyStep, hr], ha, hs, ?_, ?_, ?_, ?_⟩
        · simp [eventNotifyPost, postTask, hq, List.replicate_succ', List.append_assoc]
        · simp only [eventNotifyPost, postTask, hflag, if_true] at hc ⊢
          simp only [Bool.not_false, if_true, hflag]
          omega
        · intro hcontra
          simp [eventNotifyPost, postTask, hflag] at hcontra
        · simp only
          omega
    | true =>
      by_cases hr : n.holdingTrue = 0
      · exact ⟨(w, n), posted, by simp [notifyStep, hr], ha, hs, hq, hc, hz, hk⟩
      · have hflag : w.ctx.pumpEventsInQueue_ = true := by
          cases hf : w.ctx.pumpEventsInQueue_
          · exact absurd (hz hf).2.1 hr
          · rfl
        refine ⟨(eventNotifyPost true w,
          { n with holdingTrue := n.holdingTrue - 1, returned := n.returned + 1 }),
          posted, by simp [notifyStep, hr], ha, hs, hq, ?_, ?_, ?_⟩
        · simp [hflag] at hc
          simp [eventNotifyPost, hflag]
          omega
        · intro hcontra
          simp [eventNotifyPost, hflag] at hcontra
        · simp only
          omega

theorem interleave_inv (w0 : World) (k : Nat) (schedule : List NotifyStep)
    (st : World × Notifiers) (posted : Nat) (h : NotifyInv w0 k st posted) :
    ∃ st1 posted1, interleave .context st schedule = .ok st1 ∧ NotifyInv w0 k st1 posted1 := by
  induction schedule generalizing st posted with
  | nil => exact ⟨st, posted, rfl, h⟩
  | cons a rest ih =>
    obtain ⟨st1, posted1, h1, h2⟩ := notifyStep_inv w0 k st posted a h
    obtain ⟨st2, posted2, h3, h4⟩ := ih st1 posted1 h2
    exact ⟨st2, posted2, by simp [interleave, h1, h3], h4⟩

theorem invoke_flagCounts {t : Thread} {d : CallbackData} {cb : Callback} {w w1 : World}
    (h : invoke t d w cb = .ok w1) (hj : flagCountsPumps w) : flagCountsPumps w1 := by
  unfold flagCountsPumps pendingPumps at hj ⊢
  cases cb with
  | eventNotify =>
    have h1 := (callbacks_eventNotify_ok_inv h).2
    subst h1
    cases hq : w.ctx.pumpEventsInQueue_
    · simp [hq] at hj
      simp [hj]
    · simp [hq] at hj
      simp [hj]
  | shutdownComplete =>
    obtain ⟨_, h2⟩ := callbacks_shutdownComplete_ok_inv h
    obtain ⟨_, _, _, handler, _, h4⟩ := shutdownComplete__ok_inv h2
    subst h4
    simpa [List.count_append] using hj
  | createWindow m x r k =>
    simp only [invoke] at h
    cases hc : callbacks_createWindow t d m x r k w with
    | error e => simp [hc, Except.map] at h
    | ok p =>
      obtain ⟨w2, ret⟩ := p
      simp only [hc, Except.map, Except.ok.injEq] at h
      subst h
      obtain ⟨_, handler, _, h5⟩ := callbacks_createWindow_ok_inv hc
      rcases h5 with ⟨_, _, h6, _⟩ | ⟨_, _, h6, _⟩ <;> (subst h6; exact hj)
  | closeWindow x =>
    obtain ⟨_, _, handler, _, h2⟩ := callbacks_closeWindow_ok_inv h
    subst h2; exact hj
  | fetchWindowImage x sink =>
    obtain ⟨_, _, h2, _, _, h3⟩ := callbacks_fetchWindowImage_ok_inv h
    rw [h2, h3]; exact hj
  | resizeWindow _ _ _ | mouseDown _ _ _ _ | mouseUp _ _ _ _ | mouseMove _ _ _
  | mouseDoubleClick _ _ _ _ | mouseWheel _ _ _ _ _ | mouseLeave _ _ _ | keyDown _ _
  | keyUp _ _ | loseFocus _ =>
    rw [(callbacks_emptyBody_ok_inv h).2]; exact hj

theorem step_flagCounts {w w1 : World} {s : Step} (h : step w s = .ok w1)
    (hs : s.isPumpEnter = false) (hj : flagCountsPumps w) : flagCountsPumps w1 := by
  cases s with
  | start t eh =>
    obtain ⟨_, _, _, _, h5⟩ := start_ok_inv h
    subst h5; exact hj
  | shutdown t =>
    obtain ⟨_, _, _, _, h5⟩ := shutdown_ok_inv h
    subst h5; exact hj
  | closeWindow t y =>
    obtain ⟨_, _, _, _, _, h5⟩ := closeWindow_ok_inv h
    subst h5; exact hj
  | notifyWindowViewChanged t y =>
    obtain ⟨_, _, _, _, _, h5⟩ := notifyWindowViewChanged_ok_inv h
    subst h5; exact hj
  | pumpEventsEnter t => simp [Step.isPumpEnter] at hs
  | pumpEventsLeave t =>
    simp only [step, Except.ok.injEq] at h
    subst h; exact hj
  | destroy =>
    obtain ⟨_, _, h5⟩ := destroy_ok_inv h
    subst h5; exact hj
  | callback t d cb => exact invoke_flagCounts (show invoke t d w cb = .ok w1 from h) hj

theorem run_flagCounts {steps : List Step} {w w1 : World} (h : run w steps = .ok w1)
    (hs : ∀ s ∈ steps, s.isPumpEnter = false) (hj : flagCountsPumps w) :
    flagCountsPumps w1 := by
  induction steps generalizing w with
  | nil =>
    simp only [run, Except.ok.injEq] at h
    subst h; exact hj
  | cons s rest ih =>
    obtain ⟨w2, h1, h2⟩ := run_cons_ok_inv h
    exact ih h2 (fun s1 hmem => hs s1 (List.mem_cons_of_mem _ hmem))
      (step_flagCounts h1 (hs s (List.mem_cons_self _ _)) hj)

theorem pumpEvents__ok_inv {t : Thread} {during : List Step} {w w2 : World}
    (h : pumpEvents_ t during w = .ok w2) :
    ∃ wa wb, pumpEventsEnter t w = .ok wa ∧ run wa during = .ok wb ∧
      w2 = pumpEventsLeave t wb := by
  unfold pumpEvents_ at h
  cases he : pumpEventsEnter t w with
  | error e => simp [he, bind, Except.bind] at h
  | ok wa =>
    cases hr : run wa during with
    | error e => simp [he, hr, bind, Except.bind] at h
    | ok wb =>
      simp only [he, hr, bind_ok, pure, Except.pure, Except.ok.injEq] at h
      exact ⟨wa, wb, rfl, hr, h.symm⟩

theorem runTask_flagCounts {during : List Step} {w w1 : World} (h : runTask during w = .ok w1)
    (hs : ∀ s ∈ during, s.isPumpEnter = false) (hj : flagCountsPumps w) :
    flagCountsPumps w1 := by
  unfold runTask at h
  cases hq : w.taskQueue with
  | nil =>
    simp only [hq, Except.ok.injEq] at h
    subst h; exact hj
  | cons task rest =>
    cases task with
    | pumpEvents_ =>
      simp only [hq] at h
      obtain ⟨wa, wb, h1, h2, h3⟩ := pumpEvents__ok_inv h
      obtain ⟨_, _, _, _, h5⟩ := pumpEventsEnter_ok_inv h1
      have hja : flagCountsPumps wa := by
        subst h5
        unfold flagCountsPumps pendingPumps at hj ⊢
        rw [hq] at hj
        cases hf : w.ctx.pumpEventsInQueue_
        · simp [hf] at hj
        · simp [hf] at hj
          simp [World.call, hj]
      have hjb := run_flagCounts h2 hs hja
      subst h3
      exact hjb
    | onViceContextShutdownComplete handler =>
      simp only [hq, Except.ok.injEq] at h
      subst h
      unfold flagCountsPumps pendingPumps at hj ⊢
      rw [hq] at hj
      simpa using hj

theorem exec_flagCounts {actions : List Action} {w w1 : World} (h : exec w actions = .ok w1)
    (hs : ∀ a ∈ actions, a.viaQueue = true) (hj : flagCountsPumps w) :
    flagCountsPumps w1 := by
  induction actions generalizing w with
  | nil =>
    simp only [exec, Except.ok.injEq] at h
    subst h; exact hj
  | cons a rest ih =>
    simp only [exec] at h
    cases ha : act w a with
    | error e => simp [ha] at h
    | ok w2 =>
      simp only [ha] at h
      have hv := hs a (List.mem_cons_self _ _)
      refine ih h (fun a1 hmem => hs a1 (List.mem_cons_of_mem _ hmem)) ?_
      cases a with
      | step s =>
        exact step_flagCounts (show step w s = .ok w2 from ha) (by simpa [Action.viaQueue] using hv)
          hj
      | task during =>
        refine runTask_flagCounts (show runTask during w = .ok w2 from ha) ?_ hj
        intro s hmem
        have := List.all_eq_true.mp hv s hmem
        simpa using this

theorem takeWhile_append_NUL (l : List Char) :
    (l ++ [NUL]).takeWhile (fun c => c != NUL) = l.takeWhile (fun c => c != NUL) := by
  induction l with
  | nil => simp [List.takeWhile]
  | cons c rest ih =>
    by_cases h : c = NUL
    · simp [List.takeWhile, h]
    · simp [List.takeWhile, h, ih]

theorem cStringText_terminated (val : String) :
    cStringText (val.toList ++ [NUL]) =
      String.mk (val.toList.takeWhile (fun c => c != NUL)) := by
  unfold cStringText
  rw [takeWhile_append_NUL]

theorem cStringText_of_no_NUL (val : String) (h : NUL ∉ val.toList) :
    cStringText (val.toList ++ [NUL]) = val := by
  rw [cStringText_terminated]
  have h1 : val.toList.takeWhile (fun c => c != NUL) = val.toList := by
    rw [List.takeWhile_eq_self_iff]
    intro c hc
    have : c ≠ NUL := fun hn => h (hn ▸ hc)
    simpa using this
  rw [h1]
  cases val
  rfl

theorem Op.check_bind {α β : Type} (c : World → Except Fault α) (f : α → Op β) (w : World) :
    (Op.check c >>= f) w =
      match c w with
      | .ok a => f a w
      | .error e => { result := .error e, world := w } := rfl

theorem Op.update_bind {β : Type} (g : World → World) (f : Unit → Op β) (w : World) :
    (Op.update g >>= f) w = f () (g w) := rfl

theorem Op.check_require_bind {β : Type} (c : World → Bool) (s : String) (f : Unit → Op β)
    (w : World) :
    (Op.check (fun w => REQUIRE (c w) s) >>= f) w =
      if c w then f () w
      else { result := PANIC ("Requirement failed: " ++ s), world := w } := by
  rw [Op.check_bind]
  cases h : c w <;> simp [REQUIRE, PANIC]

theorem traced_closeWindow_eq (t : Thread) (window : WindowHandle) (w : World) :
    (Op.closeWindow t window w).toExcept = closeWindow t window w := by
  unfold Op.closeWindow closeWindow
  simp only [Op.check_bind, Op.check_require_bind, Op.update_bind, bind_memberOf, bind_REQUIRE,
    REQUIRE_UI_THREAD, pure, Except.pure]
  unfold memberOf
  split_ifs <;> simp_all [Traced.toExcept, Op.update, REQUIRE, PANIC]

theorem Op.bind_apply {α β : Type} (x : Op α) (f : α → Op β) (w : World) :
    (x >>= f) w = Op.bind x f w := rfl

theorem Op.pure_apply {α : Type} (a : α) (w : World) :
    (Pure.pure a : Op α) w = { result := .ok a, world := w } := rfl

theorem traced_shutdownComplete__eq (t : Thread) (w : World) :
    (Op.shutdownComplete_ t w).toExcept = shutdownComplete_ t w := by
  unfold Op.shutdownComplete_ shutdownComplete_
  by_cases h1 : t = Thread.ui
  · by_cases h2 : w.ctx.state_ = State.Running
    · by_cases h3 : w.ctx.shutdownPending_ = true
      · cases he : w.ctx.eventHandler_ with
        | none =>
          simp [Op.bind_apply, Op.bind, Op.check, Op.update, REQUIRE_UI_THREAD, REQUIRE, PANIC,
            h1, h2, h3, he, Traced.toExcept, bind, Except.bind]
        | some handler =>
          simp [Op.bind_apply, Op.bind, Op.check, Op.update, REQUIRE_UI_THREAD, REQUIRE, PANIC,
            h1, h2, h3, he, derefEventHandler, Traced.toExcept, bind, Except.bind, postTask,
            pure, Except.pure]
      · simp [Op.bind_apply, Op.bind, Op.check, Op.update, REQUIRE_UI_THREAD, REQUIRE, PANIC,
          h1, h2, h3, Traced.toExcept, bind, Except.bind]
    · simp [Op.bind_apply, Op.bind, Op.check, Op.update, REQUIRE_UI_THREAD, REQUIRE, PANIC,
        h1, h2, Traced.toExcept, bind, Except.bind]
  · simp [Op.bind_apply, Op.bind, Op.check, Op.update, REQUIRE_UI_THREAD, REQUIRE, PANIC,
      h1, Traced.toExcept, bind, Except.bind]

theorem traced_CTX_CALLBACK_error {β : Type} (t : Thread) (d : CallbackData) (f : Unit → Op β)
    (w : World) (e : Fault) (hc : CTX_CALLBACK t d w = .error e) :
    (Op.CTX_CALLBACK t d >>= f) w = { result := .error e, world := w } := by
  simp [Op.bind_apply, Op.bind, Op.CTX_CALLBACK, Op.check, hc]

theorem traced_CTX_CALLBACK_ok {β : Type} (t : Thread) (d : CallbackData) (f : Unit → Op β)
    (w : World) (hc : CTX_CALLBACK t d w = .ok ()) :
    (Op.CTX_CALLBACK t d >>= f) w = f () w := by
  simp [Op.bind_apply, Op.bind, Op.CTX_CALLBACK, Op.check, hc]

theorem traced_callbacks_shutdownComplete_eq (t : Thread) (d : CallbackData) (w : World) :
    (Op.callbacks_shutdownComplete t d w).toExcept = callbacks_shutdownComplete t d w := by
  unfold Op.callbacks_shutdownComplete callbacks_shutdownComplete
  cases hc : CTX_CALLBACK t d w with
  | error e =>
    rw [traced_CTX_CALLBACK_error t d _ w e hc]
    rfl
  | ok u =>
    rw [traced_CTX_CALLBACK_ok t d _ w hc]
    exact traced_shutdownComplete__eq t w

theorem traced_callbacks_closeWindow_eq (t : Thread) (d : CallbackData)
    (window : WindowHandle) (w : World) :
    (Op.callbacks_closeWindow t d window w).toExcept = callbacks_closeWindow t d window w := by
  unfold Op.callbacks_closeWindow callbacks_closeWindow
  cases hc : CTX_CALLBACK t d w with
  | error e =>
    rw [traced_CTX_CALLBACK_error t d _ w e hc]
    rfl
  | ok u =>
    rw [traced_CTX_CALLBACK_ok t d _ w hc]
    by_cases hx : window ∈ w.ctx.openWindows_
    · cases he : w.ctx.eventHandler_ with
      | none =>
        simp [Op.bind_apply, Op.bind, Op.check, Op.update, REQUIRE, PANIC, hx, he,
          derefEventHandler, Traced.toExcept, bind, Except.bind]
      | some handler =>
        simp [Op.bind_apply, Op.bind, Op.check, Op.update, REQUIRE, PANIC, hx, he,
          derefEventHandler, Traced.toExcept, bind, Except.bind, pure, Except.pure]
    · simp [Op.bind_apply, Op.bind, Op.check, Op.update, REQUIRE, PANIC, hx,
        Traced.toExcept, bind, Except.bind]

theorem traced_callbacks_emptyBody_eq (t : Thread) (d : CallbackData) (w : World) :
    (Op.callbacks_emptyBody t d w).toExcept = callbacks_emptyBody t d w := by
  unfold Op.callbacks_emptyBody callbacks_emptyBody Op.CTX_CALLBACK Op.check Traced.toExcept
  cases hc : CTX_CALLBACK t d w <;> rfl

theorem traced_callbacks_eventNotify_eq (d : CallbackData) (w : World) :
    (Op.callbacks_eventNotify d w).toExcept = callbacks_eventNotify d w := by
  unfold Op.callbacks_eventNotify callbacks_eventNotify
  cases hc : CTX_CALLBACK_WITHOUT_PUMPEVENTS_CHECK d w with
  | error e =>
    simp [Op.bind_apply, Op.bind, Op.check, hc, Traced.toExcept, bind, Except.bind]
  | ok u =>
    cases hq : w.ctx.pumpEventsInQueue_ <;>
      simp [Op.bind_apply, Op.bind, Op.check, Op.exchange, Op.update, Op.pure_apply, Op.pure, hc, hq,
        Traced.toExcept, bind, Except.bind, pure, Except.pure]

theorem traced_callbacks_createWindow_eq (t : Thread) (d : CallbackData) (msgIsNull : Bool)
    (window : WindowHandle) (reason : Option String) (mallocOk : Bool) (w : World) :
    (match (Op.callbacks_createWindow t d msgIsNull window reason mallocOk w).result with
      | .ok r => .ok ((Op.callbacks_createWindow t d msgIsNull window reason mallocOk w).world, r)
      | .error e => .error e) =
    callbacks_createWindow t d msgIsNull window reason mallocOk w := by
  unfold Op.callbacks_createWindow callbacks_createWindow
  cases hc : CTX_CALLBACK t d w with
  | error e =>
    rw [traced_CTX_CALLBACK_error t d _ w e hc]
    rfl
  | ok u =>
    rw [traced_CTX_CALLBACK_ok t d _ w hc]
    cases he : w.ctx.eventHandler_ with
    | none =>
      simp [Op.bind_apply, Op.bind, Op.check, he, derefEventHandler, bind, Except.bind]
    | some handler =>
      by_cases h1 : (window != 0 || msgIsNull) = true
      · by_cases hx : window ∈ w.ctx.openWindows_
        · simp [Op.bind_apply, Op.bind, Op.check, Op.update, Op.pure_apply, Op.pure, REQUIRE, PANIC, he,
            h1, hx, derefEventHandler, World.call, bind, Except.bind, pure, Except.pure]
        · simp [Op.bind_apply, Op.bind, Op.check, Op.update, Op.pure_apply, Op.pure, REQUIRE, PANIC, he,
            h1, hx, derefEventHandler, World.call, bind, Except.bind, pure, Except.pure]
      · cases mallocOk
        · simp [Op.bind_apply, Op.bind, Op.check, Op.update, Op.pure_apply, Op.pure, REQUIRE, PANIC, he,
            h1, derefEventHandler, createMallocString, bind, Except.bind, pure, Except.pure]
        · simp [Op.bind_apply, Op.bind, Op.check, Op.update, Op.pure_apply, Op.pure, REQUIRE, PANIC, he,
            h1, derefEventHandler, createMallocString, bind, Except.bind, pure, Except.pure]

theorem traced_runSink_eq (sink : List SinkCall) (called : Bool) (w : World) :
    (match (Op.runSink called sink w).result with
      | .ok b => .ok ((Op.runSink called sink w).world, b)
      | .error e => .error e) = runSink (w, called) sink := by
  induction sink generalizing called w with
  | nil => rfl
  | cons c rest ih =>
    unfold Op.runSink runSink putImageSink
    cases called with
    | true =>
      simp [Op.bind_apply, Op.bind, Op.check, REQUIRE, PANIC, bind, Except.bind]
    | false =>
      by_cases hw : c.width = 0
      · simp [Op.bind_apply, Op.bind, Op.check, REQUIRE, PANIC, hw, bind, Except.bind]
      · by_cases hh : c.height = 0
        · simp [Op.bind_apply, Op.bind, Op.check, REQUIRE, PANIC, hw, hh, bind, Except.bind]
        · have h := ih true (w.call (.putImageFunc c.image c.width c.height c.pitch))
          simp [Op.bind_apply, Op.bind, Op.check, Op.update, REQUIRE, PANIC, hw, hh, bind,
            Except.bind, pure, Except.pure]
          exact h

theorem traced_callbacks_fetchWindowImage_eq (t : Thread) (d : CallbackData)
    (window : WindowHandle) (sink : List SinkCall) (w : World) :
    (Op.callbacks_fetchWindowImage t d window sink w).toExcept =
      callbacks_fetchWindowImage t d window sink w := by
  unfold Op.callbacks_fetchWindowImage callbacks_fetchWindowImage
  cases hc : CTX_CALLBACK t d w with
  | error e =>
    rw [traced_CTX_CALLBACK_error t d _ w e hc]
    rfl
  | ok u =>
    rw [traced_CTX_CALLBACK_ok t d _ w hc]
    by_cases hx : window ∈ w.ctx.openWindows_
    · cases he : w.ctx.eventHandler_ with
      | none =>
        simp [Op.bind_apply, Op.bind, Op.check, Op.update, REQUIRE, PANIC, hx, he,
          derefEventHandler, Traced.toExcept, bind, Except.bind]
      | some handler =>
        have hs := traced_runSink_eq sink false
          (w.call (.onViceContextFetchWindowImage handler window))
        cases hr : (Op.runSink false sink
            (w.call (.onViceContextFetchWindowImage handler window))).result with
        | error e =>
          rw [hr] at hs
          simp [Op.bind_apply, Op.bind, Op.check, Op.update, REQUIRE, PANIC, hx, he, hr,
            ← hs, derefEventHandler, Traced.toExcept, bind, Except.bind]
        | ok b =>
          rw [hr] at hs
          cases b <;>
            simp [Op.bind_apply, Op.bind, Op.check, Op.update, REQUIRE, PANIC, hx, he, hr,
              ← hs, derefEventHandler, Traced.toExcept, bind, Except.bind, pure, Except.pure]
    · simp [Op.bind_apply, Op.bind, Op.check, Op.update, REQUIRE, PANIC, hx,
        Traced.toExcept, bind, Except.bind]

theorem traced_invoke_eq (t : Thread) (d : CallbackData) (cb : Callback) (w : World) :
    (Op.invoke t d cb w).toExcept = invoke t d w cb := by
  cases cb with
  | eventNotify => exact traced_callbacks_eventNotify_eq d w
  | shutdownComplete => exact traced_callbacks_shutdownComplete_eq t d w
  | createWindow m x r k =>
    have h := traced_callbacks_createWindow_eq t d m x r k w
    simp only [invoke, ← h, Op.invoke]
    cases hr : (Op.callbacks_createWindow t d m x r k w).result <;>
      simp [Op.bind_apply, Op.bind, Op.pure_apply, Op.pure, hr, Traced.toExcept, Except.map,
        pure]
  | closeWindow x => exact traced_callbacks_closeWindow_eq t d x w
  | fetchWindowImage x sink => exact traced_callbacks_fetchWindowImage_eq t d x sink w
  | resizeWindow _ _ _ | mouseDown _ _ _ _ | mouseUp _ _ _ _ | mouseMove _ _ _
  | mouseDoubleClick _ _ _ _ | mouseWheel _ _ _ _ _ | mouseLeave _ _ _ | keyDown _ _
  | keyUp _ _ | loseFocus _ =>
    exact traced_callbacks_emptyBody_eq t d w

theorem traced_invoke_stops_at_CTX_CALLBACK (t : Thread) (d : CallbackData) (cb : Callback)
    (w : World) (e : Fault) (hcb : cb ≠ .eventNotify) (hc : CTX_CALLBACK t d w = .error e) :
    (Op.invoke t d cb w).result = .error e ∧ (Op.invoke t d cb w).world = w := by
  cases cb with
  | eventNotify => exact absurd rfl hcb
  | shutdownComplete =>
    show (Op.callbacks_shutdownComplete t d w).result = _ ∧
      (Op.callbacks_shutdownComplete t d w).world = _
    unfold Op.callbacks_shutdownComplete
    rw [traced_CTX_CALLBACK_error t d _ w e hc]
    exact ⟨rfl, rfl⟩
  | createWindow m x r k =>
    have h : Op.callbacks_createWindow t d m x r k w = { result := .error e, world := w } := by
      unfold Op.callbacks_createWindow
      rw [traced_CTX_CALLBACK_error t d _ w e hc]
    simp [Op.invoke, Op.bind_apply, Op.bind, h]
  | closeWindow x =>
    show (Op.callbacks_closeWindow t d x w).result = _ ∧
      (Op.callbacks_closeWindow t d x w).world = _
    unfold Op.callbacks_closeWindow
    rw [traced_CTX_CALLBACK_error t d _ w e hc]
    exact ⟨rfl, rfl⟩
  | fetchWindowImage x sink =>
    show (Op.callbacks_fetchWindowImage t d x sink w).result = _ ∧
      (Op.callbacks_fetchWindowImage t d x sink w).world = _
    unfold Op.callbacks_fetchWindowImage
    rw [traced_CTX_CALLBACK_error t d _ w e hc]
    exact ⟨rfl, rfl⟩
  | resizeWindow _ _ _ | mouseDown _ _ _ _ | mouseUp _ _ _ _ | mouseMove _ _ _
  | mouseDoubleClick _ _ _ _ | mouseWheel _ _ _ _ _ | mouseLeave _ _ _ | keyDown _ _
  | keyUp _ _ | loseFocus _ =>
    show (Op.callbacks_emptyBody t d w).result = _ ∧ (Op.callbacks_emptyBody t d w).world = _
    unfold Op.callbacks_emptyBody Op.CTX_CALLBACK Op.check
    exact ⟨hc, rfl⟩

/-! ## The lifecycle state machine -/

/-- C1: along every execution that raises no fault the lifecycle state only
moves forward on the line Pending, Running, ShutdownComplete.  A freshly
constructed context is Pending; a step `s` taken in Pending either leaves the
state alone or is `start` and leads to Running; a step taken in Running either
leaves the state alone or is the shutdown-complete callback (which runs
`shutdownComplete_`) and leads to ShutdownComplete; no step changes
ShutdownComplete; and whatever steps `rest` follow, the state never comes back
to one it has left. -/
theorem state_only_moves_forward (ndebug : Bool) (this : Ptr) (w w1 w2 : World) (s : Step)
    (rest : List Step) (hstep : step w s = .ok w1) (hrest : run w1 rest = .ok w2) :
    (World.fresh ndebug this).ctx.state_ = .Pending ∧
    (w.ctx.state_ = .Pending →
      w1.ctx.state_ = .Pending ∨ (w1.ctx.state_ = .Running ∧ ∃ t eh, s = .start t eh)) ∧
    (w.ctx.state_ = .Running →
      w1.ctx.state_ = .Running ∨
        (w1.ctx.state_ = .ShutdownComplete ∧ ∃ t d, s = .callback t d .shutdownComplete)) ∧
    (w.ctx.state_ = .ShutdownComplete → w1.ctx.state_ = .ShutdownComplete) ∧
    w.ctx.state_.rank ≤ w1.ctx.state_.rank ∧
    w1.ctx.state_.rank ≤ w2.ctx.state_.rank ∧
    (w1.ctx.state_ ≠ w.ctx.state_ → w2.ctx.state_ ≠ w.ctx.state_) := by
  have hs := step_state hstep
  have hr1 := step_rank hstep
  have hr2 := run_rank hrest
  refine ⟨rfl, ?_, ?_, ?_, hr1, hr2, ?_⟩
  · intro hp
    rcases hs with h1 | ⟨_, h2, h3⟩ | ⟨h1, _, _⟩
    · exact Or.inl (h1.trans hp)
    · exact Or.inr ⟨h2, h3⟩
    · rw [hp] at h1; cases h1
  · intro hp
    rcases hs with h1 | ⟨h1, _, _⟩ | ⟨_, h2, h3⟩
    · exact Or.inl (h1.trans hp)
    · rw [hp] at h1; cases h1
    · exact Or.inr ⟨h2, h3⟩
  · intro hp
    rcases hs with h1 | ⟨h1, _, _⟩ | ⟨h1, _, _⟩
    · exact h1.trans hp
    · rw [hp] at h1; cases h1
    · rw [hp] at h1; cases h1
  · intro hne heq
    rcases hs with h1 | ⟨h1, h2, _⟩ | ⟨h1, h2, _⟩
    · exact hne h1
    · rw [heq, h1, h2] at hr2
      exact absurd hr2 (by decide)
    · rw [heq, h1, h2] at hr2
      exact absurd hr2 (by decide)

/-- Witness for C1: a context is started, asked to shut down, and the plugin
completes the shutdown during a pump. -/
theorem state_only_moves_forward_witness :
    ∃ w1 w2 : World,
      step (World.fresh false 7) (.start .ui (some 3)) = .ok w1 ∧
      run w1 [.shutdown .ui, .pumpEventsEnter .ui, .callback .ui .context .shutdownComplete,
        .pumpEventsLeave .ui] = .ok w2 ∧
      w1.ctx.state_ = .Running ∧ w2.ctx.state_ = .ShutdownComplete ∧
      (w1.ctx.state_ ≠ (World.fresh false 7).ctx.state_ →
        w2.ctx.state_ ≠ (World.fresh false 7).ctx.state_) :=
  ⟨_, _, rfl, rfl, rfl, rfl,
    (state_only_moves_forward false 7 (World.fresh false 7) _ _ (.start .ui (some 3))
      [.shutdown .ui, .pumpEventsEnter .ui, .callback .ui .context .shutdownComplete,
        .pumpEventsLeave .ui] rfl rfl).2.2.2.2.2.2⟩

/-- C2: on a live context and on the control thread, `start` succeeds exactly
when the state is Pending and the event handler is non-null.  When it
succeeds the state becomes Running, the handler is stored, the self-reference
is taken, the plugin's `start` entry point is called, and any further `start`
on the resulting context is fatal; in every other case the call is fatal. -/
theorem start_succeeds_iff (w : World) (eventHandler : Option Ptr) (halive : w.alive = true) :
    ((∃ w1, start .ui eventHandler w = .ok w1) ↔
      (w.ctx.state_ = .Pending ∧ eventHandler ≠ none)) ∧
    (w.ctx.state_ = .Pending ∧ eventHandler ≠ none →
      ∃ w1, start .ui eventHandler w = .ok w1 ∧
        w1.ctx.state_ = .Running ∧ w1.ctx.eventHandler_ = eventHandler ∧
        w1.ctx.self_ = true ∧ w1.calls = w.calls ++ [.apiStart] ∧
        ∀ eh2, isPanic (start .ui eh2 w1) = true) ∧
    (¬ (w.ctx.state_ = .Pending ∧ eventHandler ≠ none) →
      isPanic (start .ui eventHandler w) = true) := by
  have hpos : w.ctx.state_ = .Pending ∧ eventHandler ≠ none →
      ∃ w1, start .ui eventHandler w = .ok w1 ∧
        w1.ctx.state_ = .Running ∧ w1.ctx.eventHandler_ = eventHandler ∧
        w1.ctx.self_ = true ∧ w1.calls = w.calls ++ [.apiStart] ∧
        ∀ eh2, isPanic (start .ui eh2 w1) = true := by
    rintro ⟨hp, he⟩
    obtain ⟨h, rfl⟩ := Option.ne_none_iff_exists'.mp he
    have hstart : start .ui (some h) w = .ok (({ w with ctx := { w.ctx with
        state_ := .Running, eventHandler_ := some h, self_ := true } } : World).call
          .apiStart) := by
      unfold start
      simp only [bind_memberOf, bind_REQUIRE, REQUIRE_UI_THREAD, pure, Except.pure]
      simp [halive, hp]
    refine ⟨_, hstart, rfl, rfl, rfl, rfl, ?_⟩
    · intro eh2
      unfold start
      simp only [bind_memberOf, bind_REQUIRE, REQUIRE_UI_THREAD, pure, Except.pure]
      simp [halive, World.call, PANIC, isPanic]
  refine ⟨⟨?_, fun h => ?_⟩, hpos, ?_⟩
  · rintro ⟨w1, h1⟩
    obtain ⟨_, _, h3, h4, _⟩ := start_ok_inv h1
    refine ⟨h3, ?_⟩
    rintro rfl
    simp at h4
  · obtain ⟨w1, h1, _⟩ := hpos h
    exact ⟨w1, h1⟩
  · intro hneg
    unfold start
    simp only [bind_memberOf, bind_REQUIRE, REQUIRE_UI_THREAD, pure, Except.pure]
    by_cases hp : w.ctx.state_ = .Pending
    · have he : eventHandler = none := by
        by_contra hne
        exact hneg ⟨hp, hne⟩
      simp [halive, hp, he, PANIC, isPanic]
    · simp [halive, hp, PANIC, isPanic]

/-- Witness for C2: a freshly constructed context is started with handler 3. -/
theorem start_succeeds_iff_witness :
    (World.fresh false 7).alive = true ∧
    ((∃ w1, start .ui (some 3) (World.fresh false 7) = .ok w1) ↔
      ((World.fresh false 7).ctx.state_ = .Pending ∧ (some 3 : Option Ptr) ≠ none)) :=
  ⟨rfl, (start_succeeds_iff (World.fresh false 7) (some 3) rfl).1⟩

/-- C3: on a live context and on the control thread, `shutdown` succeeds exactly
when the state is Running and `shutdownPending_` is false.  When it succeeds
it sets `shutdownPending_`, calls the plugin's `shutdown` entry point and leaves
the state Running and the open-window set as they were; from then on, as long
as the shutdown-complete callback has not been made, the context is still
Running and a further `shutdown` is fatal.  In every other case the call is
fatal. -/
theorem shutdown_succeeds_iff (w : World) (halive : w.alive = true) :
    ((∃ w1, shutdown .ui w = .ok w1) ↔
      (w.ctx.state_ = .Running ∧ w.ctx.shutdownPending_ = false)) ∧
    (w.ctx.state_ = .Running ∧ w.ctx.shutdownPending_ = false →
      ∃ w1, shutdown .ui w = .ok w1 ∧
        w1.ctx.shutdownPending_ = true ∧ w1.ctx.state_ = .Running ∧
        w1.ctx.openWindows_ = w.ctx.openWindows_ ∧ w1.calls = w.calls ++ [.apiShutdown] ∧
        ∀ rest w2, run w1 rest = .ok w2 →
          (∀ s ∈ rest, ∀ t d, s ≠ .callback t d .shutdownComplete) →
          w2.ctx.state_ = .Running ∧ isPanic (shutdown .ui w2) = true) ∧
    (¬ (w.ctx.state_ = .Running ∧ w.ctx.shutdownPending_ = false) →
      isPanic (shutdown .ui w) = true) := by
  have hpos : w.ctx.state_ = .Running ∧ w.ctx.shutdownPending_ = false →
      ∃ w1, shutdown .ui w = .ok w1 ∧
        w1.ctx.shutdownPending_ = true ∧ w1.ctx.state_ = .Running ∧
        w1.ctx.openWindows_ = w.ctx.openWindows_ ∧ w1.calls = w.calls ++ [.apiShutdown] ∧
        ∀ rest w2, run w1 rest = .ok w2 →
          (∀ s ∈ rest, ∀ t d, s ≠ .callback t d .shutdownComplete) →
          w2.ctx.state_ = .Running ∧ isPanic (shutdown .ui w2) = true := by
    rintro ⟨hs, hp⟩
    have hshut : shutdown .ui w = .ok (({ w with ctx := { w.ctx with
        shutdownPending_ := true } } : World).call .apiShutdown) := by
      unfold shutdown
      simp only [bind_memberOf, bind_REQUIRE, REQUIRE_UI_THREAD, pure, Except.pure]
      simp [halive, hs, hp]
    refine ⟨_, hshut, rfl, hs, rfl, rfl, ?_⟩
    intro rest w2 hrun hn
    obtain ⟨hs2, hp2, ha2⟩ := run_keeps_shutdownPending hrun hs rfl halive hn
    refine ⟨hs2, shutdown_panics_of_pending w2 ha2 ?_⟩
    rintro ⟨_, hq⟩
    rw [hp2] at hq
    cases hq
  refine ⟨⟨?_, fun h => ?_⟩, hpos, shutdown_panics_of_pending w halive⟩
  · rintro ⟨w1, h1⟩
    obtain ⟨_, _, h3, h4, _⟩ := shutdown_ok_inv h1
    exact ⟨h3, h4⟩
  · obtain ⟨w1, h1, _⟩ := hpos h
    exact ⟨w1, h1⟩

/-- Witness for C3: `shutdown` on a Running context that has not been asked to
shut down. -/
theorem shutdown_succeeds_iff_witness :
    (World.running {1, 2}).alive = true ∧
    ((∃ w1, shutdown .ui (World.running {1, 2}) = .ok w1) ↔
      ((World.running {1, 2}).ctx.state_ = .Running ∧
        (World.running {1, 2}).ctx.shutdownPending_ = false)) :=
  ⟨rfl, (shutdown_succeeds_iff (World.running {1, 2}) rfl).1⟩

/-- C4: `shutdownComplete_` is fatal unless the context is Running with
`shutdownPending_` set.  On the control thread, with the context Running,
`shutdownPending_` set and an event handler held, it succeeds: the state
becomes ShutdownComplete, the self-reference is released, exactly one task
(the handler's `onViceContextShutdownComplete`) is posted, and the context
holds no event handler afterwards.  The shutdown-complete callback is the
trampoline check followed by `shutdownComplete_`. -/
theorem shutdownComplete_requires_pending (t : Thread) (d : CallbackData) (w : World)
    (handler : Ptr) :
    (¬ (w.ctx.state_ = .Running ∧ w.ctx.shutdownPending_ = true) →
      isPanic (shutdownComplete_ t w) = true) ∧
    (w.ctx.state_ = .Running ∧ w.ctx.shutdownPending_ = true ∧
        w.ctx.eventHandler_ = some handler →
      ∃ w1, shutdownComplete_ .ui w = .ok w1 ∧
        w1.ctx.state_ = .ShutdownComplete ∧ w1.ctx.self_ = false ∧
        w1.taskQueue = w.taskQueue ++ [.onViceContextShutdownComplete handler] ∧
        w1.ctx.eventHandler_ = none ∧ w1.calls = w.calls) ∧
    (CTX_CALLBACK t d w = .ok () →
      callbacks_shutdownComplete t d w = shutdownComplete_ t w) ∧
    (∀ e, CTX_CALLBACK t d w = .error e → callbacks_shutdownComplete t d w = .error e) := by
  refine ⟨?_, ?_, ?_, ?_⟩
  · intro hneg
    unfold shutdownComplete_
    simp only [bind_REQUIRE, REQUIRE_UI_THREAD, pure, Except.pure]
    by_cases ht : t = .ui
    · by_cases hs : w.ctx.state_ = .Running
      · have hp : w.ctx.shutdownPending_ = false := by
          cases hq : w.ctx.shutdownPending_
          · rfl
          · exact absurd ⟨hs, hq⟩ hneg
        simp [ht, hs, hp, PANIC, isPanic]
      · simp [ht, hs, PANIC, isPanic]
    · simp [ht, PANIC, isPanic]
  · rintro ⟨hs, hp, he⟩
    have hsc : shutdownComplete_ .ui w = .ok { w with
        ctx := { w.ctx with state_ := .ShutdownComplete, shutdownPending_ := false,
                            self_ := false, eventHandler_ := none }
        taskQueue := w.taskQueue ++ [.onViceContextShutdownComplete handler] } := by
      unfold shutdownComplete_
      simp only [bind_REQUIRE, REQUIRE_UI_THREAD, pure, Except.pure]
      simp [hs, hp, he, derefEventHandler, postTask, bind, Except.bind]
    exact ⟨_, hsc, rfl, rfl, rfl, rfl, rfl⟩
  · intro hc
    unfold callbacks_shutdownComplete
    rw [hc]
    rfl
  · intro e hc
    unfold callbacks_shutdownComplete
    rw [hc]
    rfl

/-- Witness for C4: the shutdown-complete callback during the pump of a
context on which `shutdown` has been called. -/
theorem shutdownComplete_requires_pending_witness :
    ((World.pumpingShutdown {1}).ctx.state_ = .Running ∧
      (World.pumpingShutdown {1}).ctx.shutdownPending_ = true ∧
      (World.pumpingShutdown {1}).ctx.eventHandler_ = some 3) ∧
    CTX_CALLBACK .ui .context (World.pumpingShutdown {1}) = .ok () ∧
    ∃ w1, shutdownComplete_ .ui (World.pumpingShutdown {1}) = .ok w1 ∧
      w1.ctx.state_ = .ShutdownComplete ∧ w1.ctx.self_ = false ∧
      w1.taskQueue =
        (World.pumpingShutdown {1}).taskQueue ++ [.onViceContextShutdownComplete 3] ∧
      w1.ctx.eventHandler_ = none ∧ w1.calls = (World.pumpingShutdown {1}).calls :=
  ⟨⟨rfl, rfl, rfl⟩, rfl,
    (shutdownComplete_requires_pending .ui .context (World.pumpingShutdown {1}) 3).2.1
      ⟨rfl, rfl, rfl⟩⟩

/-- C5: destroying a live context is fatal exactly when its state is Running;
in state Pending or ShutdownComplete the destructor succeeds and calls the
plugin's `destroyContext`. -/
theorem destroy_fatal_iff_running (w : World) (halive : w.alive = true) :
    (isPanic (destroy w) = true ↔ w.ctx.state_ = .Running) ∧
    (w.ctx.state_ = .Pending ∨ w.ctx.state_ = .ShutdownComplete →
      destroy w = .ok { (w.call .apiDestroyContext) with alive := false }) := by
  unfold destroy
  simp only [bind_memberOf, bind_REQUIRE, pure, Except.pure]
  cases hs : w.ctx.state_ <;> simp [halive, PANIC, isPanic]

/-- Witness for C5: destroying a freshly constructed (Pending) context. -/
theorem destroy_fatal_iff_running_witness :
    (World.fresh false 7).alive = true ∧
    (isPanic (destroy (World.fresh false 7)) = true ↔
      (World.fresh false 7).ctx.state_ = .Running) :=
  ⟨rfl, (destroy_fatal_iff_running (World.fresh false 7) rfl).1⟩

/-! ## The open-window set -/

/-- C6 (the code at the failing input): during the pump of a Running context
with no open window, the plugin invokes create-window with `msg == nullptr`
and the event handler refuses (returns 0).  The callback returns 0 and
nevertheless inserts the handle 0 into the open-window set; the same
invocation made once more is then fatal, because 0 is already in the set. -/
theorem createWindow_null_msg_inserts_zero :
    ∃ w1, callbacks_createWindow .ui .context true 0 none true (World.pumping ∅) =
        .ok (w1, { window := 0, msg := none }) ∧
      w1.ctx.openWindows_ = {0} ∧
      isPanic (callbacks_createWindow .ui .context true 0 none true w1) = true :=
  ⟨_, rfl, rfl, rfl⟩

/-- C7 (counterexample): during the pump of a Running context whose open-window
set is `{5}`, the event handler answers a create-window request with the
non-zero handle 5.  The handle is neither inserted nor returned: the callback
is fatal. -/
theorem createWindow_duplicate_handle_is_fatal :
    isPanic (callbacks_createWindow .ui .context false 5 none true (World.pumping {5})) = true ∧
    ¬ ∃ w1 r, callbacks_createWindow .ui .context false 5 none true (World.pumping {5}) =
      .ok (w1, r) := by
  have h : callbacks_createWindow .ui .context false 5 none true (World.pumping {5}) =
      PANIC "Requirement failed: self->openWindows_.insert(window).second" := rfl
  refine ⟨by rw [h]; rfl, ?_⟩
  rintro ⟨w1, r, h1⟩
  rw [h] at h1
  cases h1

/-- C7 (amended): for every invocation of the create-window callback that
passes the trampoline checks, on a context that holds an event handler:
if the handler returns zero, the reason slot is non-null and the copy of the
reason is allocated, the callback returns 0, stores through the slot a block
holding the characters of the handler's reason ("Unknown reason" when the
handler assigned none) followed by a terminating NUL, and leaves the
open-window set unchanged; read as a C string the block is the reason up to
its first NUL character, the whole reason when it contains none;
if the handler returns a non-zero handle that is
not in the open-window set, the handle is inserted and returned and nothing is
stored through the slot; if the handler returns a non-zero handle that is
already in the set, the invocation is fatal. -/
theorem createWindow_result (t : Thread) (d : CallbackData) (msgIsNull : Bool)
    (window : WindowHandle) (reason : Option String) (mallocOk : Bool) (w : World)
    (handler : Ptr) (hc : CTX_CALLBACK t d w = .ok ())
    (he : w.ctx.eventHandler_ = some handler) :
    (window = 0 → msgIsNull = false → mallocOk = true →
      ∃ w1, callbacks_createWindow t d msgIsNull window reason mallocOk w =
          .ok (w1, { window := 0,
                     msg := some ((reason.getD "Unknown reason").toList ++ [NUL]) }) ∧
        cStringText ((reason.getD "Unknown reason").toList ++ [NUL]) =
          String.mk ((reason.getD "Unknown reason").toList.takeWhile (fun c => c != NUL)) ∧
        (NUL ∉ (reason.getD "Unknown reason").toList →
          cStringText ((reason.getD "Unknown reason").toList ++ [NUL]) =
            reason.getD "Unknown reason") ∧
        w1.ctx = w.ctx ∧
        w1.calls = w.calls ++ [.onViceContextCreateWindowRequest handler]) ∧
    (window ≠ 0 → window ∉ w.ctx.openWindows_ →
      ∃ w1, callbacks_createWindow t d msgIsNull window reason mallocOk w =
          .ok (w1, { window := window, msg := none }) ∧
        w1.ctx.openWindows_ = insert window w.ctx.openWindows_ ∧
        window ∈ w1.ctx.openWindows_ ∧
        w1.calls = w.calls ++ [.onViceContextCreateWindowRequest handler]) ∧
    (window ≠ 0 → window ∈ w.ctx.openWindows_ →
      isPanic (callbacks_createWindow t d msgIsNull window reason mallocOk w) = true) := by
  refine ⟨?_, ?_, ?_⟩
  · rintro rfl rfl rfl
    refine ⟨w.call (.onViceContextCreateWindowRequest handler), ?_,
      cStringText_terminated _, cStringText_of_no_NUL _, rfl, rfl⟩
    unfold callbacks_createWindow
    simp [hc, he, derefEventHandler, createMallocString, REQUIRE, bind, Except.bind, pure,
      Except.pure]
  · intro hw hnot
    refine ⟨{ (w.call (.onViceContextCreateWindowRequest handler)) with
      ctx := { w.ctx with openWindows_ := insert window w.ctx.openWindows_ } }, ?_, rfl,
      Finset.mem_insert_self _ _, rfl⟩
    unfold callbacks_createWindow
    simp [hc, he, derefEventHandler, REQUIRE, bind, Except.bind, pure, Except.pure, hw, hnot,
      World.call]
  · intro hw hmem
    unfold callbacks_createWindow
    simp [hc, he, derefEventHandler, REQUIRE, PANIC, bind, Except.bind, hw, hmem, World.call,
      isPanic]

/-- Witness for C7: the handler grants handle 5 while windows 1 and 2 are
open; and the handler refuses with a reason that has a NUL character after its
first two characters, of which a reader of the slot sees those two. -/
theorem createWindow_result_witness :
    CTX_CALLBACK .ui .context (World.pumping {1, 2}) = .ok () ∧
    (World.pumping {1, 2}).ctx.eventHandler_ = some 3 ∧
    (∃ w1, callbacks_createWindow .ui .context false 5 none true (World.pumping {1, 2}) =
        .ok (w1, { window := 5, msg := none }) ∧
      w1.ctx.openWindows_ = insert 5 (World.pumping {1, 2}).ctx.openWindows_ ∧
      5 ∈ w1.ctx.openWindows_ ∧
      w1.calls = (World.pumping {1, 2}).calls ++ [.onViceContextCreateWindowRequest 3]) ∧
    (∃ w1, callbacks_createWindow .ui .context false 0 (some (String.mk ['n', 'o', NUL, 'x']))
        true (World.pumping {1, 2}) =
        .ok (w1, { window := 0, msg := some ['n', 'o', NUL, 'x', NUL] }) ∧
      cStringText ['n', 'o', NUL, 'x', NUL] = "no" ∧
      w1.ctx = (World.pumping {1, 2}).ctx) := by
  refine ⟨rfl, rfl,
    (createWindow_result .ui .context false 5 none true (World.pumping {1, 2}) 3 rfl rfl).2.1
      (by decide) (by decide), ?_⟩
  obtain ⟨w1, h1, h2, _, h4, _⟩ :=
    (createWindow_result .ui .context false 0 (some (String.mk ['n', 'o', NUL, 'x'])) true
      (World.pumping {1, 2}) 3 rfl rfl).1 rfl rfl rfl
  exact ⟨w1, h1, h2.trans (by decide), h4⟩

/-- C8: the close-window callback of the plugin, for every window handle.  If
the handle is not in the open-window set the invocation is fatal, and the
world in which the process stops is the world the callback was invoked in: the
open-window set is untouched and no call of the event handler has been made,
so the handler is not informed; when the trampoline checks pass, the fault is
the failed requirement on the erase.  If the handle is in the set (trampoline
checks passed, event handler held), the callback succeeds, removes exactly that
handle, keeps every other member, and calls `onViceContextCloseWindow` of the
handler once with that handle.  The statement-by-statement form of the
callback returns what `callbacks_closeWindow` returns. -/
theorem plugin_closeWindow_requires_open (t : Thread) (d : CallbackData)
    (window : WindowHandle) (w : World) (handler : Ptr) (halive : w.alive = true)
    (he : w.ctx.eventHandler_ = some handler) :
    (window ∉ w.ctx.openWindows_ → isPanic (callbacks_closeWindow t d window w) = true) ∧
    (window ∉ w.ctx.openWindows_ → CTX_CALLBACK t d w = .ok () →
      callbacks_closeWindow t d window w =
        PANIC "Requirement failed: self->openWindows_.erase(window)") ∧
    (window ∈ w.ctx.openWindows_ → CTX_CALLBACK t d w = .ok () →
      ∃ w1, callbacks_closeWindow t d window w = .ok w1 ∧
        w1.ctx.openWindows_ = w.ctx.openWindows_.erase window ∧
        (∀ x, x ∈ w1.ctx.openWindows_ ↔ x ∈ w.ctx.openWindows_ ∧ x ≠ window) ∧
        w1.calls = w.calls ++ [.onViceContextCloseWindow handler window]) ∧
    (window ∉ w.ctx.openWindows_ →
      isPanic (Op.callbacks_closeWindow t d window w).result = true ∧
      (Op.callbacks_closeWindow t d window w).world = w ∧
      (Op.callbacks_closeWindow t d window w).world.calls = w.calls ∧
      (Op.callbacks_closeWindow t d window w).world.ctx.openWindows_ = w.ctx.openWindows_) ∧
    (window ∉ w.ctx.openWindows_ → CTX_CALLBACK t d w = .ok () →
      (Op.callbacks_closeWindow t d window w).result =
        PANIC "Requirement failed: self->openWindows_.erase(window)") ∧
    (Op.callbacks_closeWindow t d window w).toExcept = callbacks_closeWindow t d window w := by
  have hstop : window ∉ w.ctx.openWindows_ →
      isPanic (Op.callbacks_closeWindow t d window w).result = true ∧
      (Op.callbacks_closeWindow t d window w).world = w := by
    intro hx
    cases hc : CTX_CALLBACK t d w with
    | ok u =>
      unfold Op.callbacks_closeWindow
      rw [traced_CTX_CALLBACK_ok t d _ w hc]
      simp [Op.bind_apply, Op.bind, Op.check, REQUIRE, PANIC, hx, isPanic]
    | error e =>
      have hp : isPanic (CTX_CALLBACK t d w) = true := by
        rcases CTX_CALLBACK_alive t d w halive with h1 | h1
        · rw [hc] at h1; cases h1
        · exact h1
      obtain ⟨h1, h2⟩ :=
        traced_invoke_stops_at_CTX_CALLBACK t d (.closeWindow window) w e (by simp) hc
      have h1 : (Op.callbacks_closeWindow t d window w).result = .error e := h1
      have h2 : (Op.callbacks_closeWindow t d window w).world = w := h2
      rw [hc] at hp
      rw [h1]
      exact ⟨hp, h2⟩
  refine ⟨callbacks_closeWindow_panics_of_not_open t d window w halive, ?_, ?_, ?_, ?_,
    traced_callbacks_closeWindow_eq t d window w⟩
  · intro hx hc
    unfold callbacks_closeWindow
    rw [hc]
    simp only [bind_ok, bind_REQUIRE, decide_eq_true_eq, hx, if_false]
    rfl
  · intro hx hc
    refine ⟨({ w with ctx := { w.ctx with
      openWindows_ := w.ctx.openWindows_.erase window } } : World).call
        (.onViceContextCloseWindow handler window), ?_, rfl, ?_, rfl⟩
    · unfold callbacks_closeWindow
      rw [hc]
      simp [bind_ok, bind_REQUIRE, hx, derefEventHandler, he, pure, Except.pure]
    · intro x
      simp only [World.call, Finset.mem_erase]
      tauto
  · intro hx
    obtain ⟨h1, h2⟩ := hstop hx
    exact ⟨h1, h2, by rw [h2], by rw [h2]⟩
  · intro hx hc
    unfold Op.callbacks_closeWindow
    rw [traced_CTX_CALLBACK_ok t d _ w hc]
    simp [Op.bind_apply, Op.bind, Op.check, REQUIRE, PANIC, hx]

/-- Witness for C8: during a pump the plugin closes window 2 of the open windows
1 and 2, and then names window 9, which is not open. -/
theorem plugin_closeWindow_requires_open_witness :
    (World.pumping {1, 2}).alive = true ∧
    (World.pumping {1, 2}).ctx.eventHandler_ = some 3 ∧
    2 ∈ (World.pumping {1, 2}).ctx.openWindows_ ∧
    CTX_CALLBACK .ui .context (World.pumping {1, 2}) = .ok () ∧
    (∃ w1, callbacks_closeWindow .ui .context 2 (World.pumping {1, 2}) = .ok w1 ∧
      w1.ctx.openWindows_ = (World.pumping {1, 2}).ctx.openWindows_.erase 2 ∧
      (∀ x, x ∈ w1.ctx.openWindows_ ↔ x ∈ (World.pumping {1, 2}).ctx.openWindows_ ∧ x ≠ 2) ∧
      w1.calls = (World.pumping {1, 2}).calls ++ [.onViceContextCloseWindow 3 2]) ∧
    isPanic (Op.callbacks_closeWindow .ui .context 9 (World.pumping {1, 2})).result = true ∧
    (Op.callbacks_closeWindow .ui .context 9 (World.pumping {1, 2})).world =
      World.pumping {1, 2} ∧
    (Op.callbacks_closeWindow .ui .context 9 (World.pumping {1, 2})).world.calls =
      (World.pumping {1, 2}).calls ∧
    (Op.callbacks_closeWindow .ui .context 9 (World.pumping {1, 2})).world.ctx.openWindows_ =
      (World.pumping {1, 2}).ctx.openWindows_ :=
  ⟨rfl, rfl, by decide, rfl,
    (plugin_closeWindow_requires_open .ui .context 2 (World.pumping {1, 2}) 3 rfl rfl).2.2.1
      (by decide) rfl,
    (plugin_closeWindow_requires_open .ui .context 9 (World.pumping {1, 2}) 3 rfl rfl).2.2.2.1
      (by decide)⟩

/-- C9: `ViceContext::closeWindow` called by the host on the control thread, on
a live Running context while no pump is active, for every window handle.  If
the handle is not in the open-window set the call is fatal at the requirement
on the erase, and the world in which the process stops is the world of the
call: the open-window set is untouched and the plugin's `closeWindow` entry
point has not been called.  Otherwise the call succeeds, removes exactly that
handle, keeps every other member, and calls the plugin's `closeWindow` entry
point with that handle.  The statement-by-statement form of the member returns
what `closeWindow` returns. -/
theorem host_closeWindow_requires_open (window : WindowHandle) (w : World)
    (halive : w.alive = true) (hrun : w.ctx.state_ = .Running)
    (hpump : w.threadActivePumpEventsContext.get .ui = none) :
    (window ∉ w.ctx.openWindows_ →
      closeWindow .ui window w = PANIC "Requirement failed: openWindows_.erase(window)") ∧
    (window ∈ w.ctx.openWindows_ →
      ∃ w1, closeWindow .ui window w = .ok w1 ∧
        w1.ctx.openWindows_ = w.ctx.openWindows_.erase window ∧
        (∀ x, x ∈ w1.ctx.openWindows_ ↔ x ∈ w.ctx.openWindows_ ∧ x ≠ window) ∧
        w1.calls = w.calls ++ [.apiCloseWindow window]) ∧
    (window ∉ w.ctx.openWindows_ →
      (Op.closeWindow .ui window w).result =
        PANIC "Requirement failed: openWindows_.erase(window)" ∧
      (Op.closeWindow .ui window w).world = w ∧
      (Op.closeWindow .ui window w).world.calls = w.calls ∧
      (Op.closeWindow .ui window w).world.ctx.openWindows_ = w.ctx.openWindows_) ∧
    (∀ t, (Op.closeWindow t window w).toExcept = closeWindow t window w) := by
  refine ⟨?_, ?_, ?_, fun t => traced_closeWindow_eq t window w⟩
  · intro hx
    unfold closeWindow
    simp only [bind_memberOf, bind_REQUIRE, REQUIRE_UI_THREAD, pure, Except.pure]
    simp [halive, hrun, hpump, hx]
  · intro hx
    refine ⟨({ w with ctx := { w.ctx with
      openWindows_ := w.ctx.openWindows_.erase window } } : World).call
        (.apiCloseWindow window), ?_, rfl, ?_, rfl⟩
    · unfold closeWindow
      simp only [bind_memberOf, bind_REQUIRE, REQUIRE_UI_THREAD, pure, Except.pure]
      simp [halive, hrun, hpump, hx]
    · intro x
      simp only [World.call, Finset.mem_erase]
      tauto
  · intro hx
    have h : Op.closeWindow .ui window w =
        { result := PANIC "Requirement failed: openWindows_.erase(window)", world := w } := by
      unfold Op.closeWindow
      simp [Op.bind_apply, Op.bind, Op.check, memberOf, REQUIRE_UI_THREAD, REQUIRE, PANIC,
        halive, hrun, hpump, hx]
    rw [h]
    exact ⟨rfl, rfl, rfl, rfl⟩

/-- Witness for C9: the host closes window 1 of the open windows 1 and 2, and
names window 9, which is not open. -/
theorem host_closeWindow_requires_open_witness :
    (World.running {1, 2}).alive = true ∧
    (World.running {1, 2}).ctx.state_ = .Running ∧
    (World.running {1, 2}).threadActivePumpEventsContext.get .ui = none ∧
    1 ∈ (World.running {1, 2}).ctx.openWindows_ ∧
    (∃ w1, closeWindow .ui 1 (World.running {1, 2}) = .ok w1 ∧
      w1.ctx.openWindows_ = (World.running {1, 2}).ctx.openWindows_.erase 1 ∧
      (∀ x, x ∈ w1.ctx.openWindows_ ↔ x ∈ (World.running {1, 2}).ctx.openWindows_ ∧ x ≠ 1) ∧
      w1.calls = (World.running {1, 2}).calls ++ [.apiCloseWindow 1]) ∧
    (Op.closeWindow .ui 9 (World.running {1, 2})).result =
      PANIC "Requirement failed: openWindows_.erase(window)" ∧
    (Op.closeWindow .ui 9 (World.running {1, 2})).world = World.running {1, 2} ∧
    (Op.closeWindow .ui 9 (World.running {1, 2})).world.calls = (World.running {1, 2}).calls ∧
    (Op.closeWindow .ui 9 (World.running {1, 2})).world.ctx.openWindows_ =
      (World.running {1, 2}).ctx.openWindows_ :=
  ⟨rfl, rfl, rfl, by decide,
    (host_closeWindow_requires_open 1 (World.running {1, 2}) rfl rfl rfl).2.1 (by decide),
    (host_closeWindow_requires_open 9 (World.running {1, 2}) rfl rfl rfl).2.2.1 (by decide)⟩

/-- C10 (counterexample): during a pump the plugin closes window 5, the only open
window.  Afterwards 5 is absent from the open-window set, and yet each of the
input-event callbacks naming window 5 (mouse down, up, move, double-click,
wheel, leave, key down, key up, focus loss) returns normally and leaves the
world as it was. -/
theorem input_event_on_closed_handle_succeeds :
    ∃ w1, step (World.pumping {5}) (.callback .ui .context (.closeWindow 5)) = .ok w1 ∧
      5 ∉ w1.ctx.openWindows_ ∧
      ∀ cb ∈ inputEvents 5 10 20 1 0, step w1 (.callback .ui .context cb) = .ok w1 := by
  refine ⟨_, rfl, by decide, ?_⟩
  intro cb hcb
  simp only [inputEvents, List.mem_cons, List.mem_singleton, List.not_mem_nil, or_false] at hcb
  rcases hcb with rfl | rfl | rfl | rfl | rfl | rfl | rfl | rfl | rfl <;> rfl

/-- C10 (amended): let a window handle be closed, by the host's `closeWindow` or
by the plugin's close-window callback, and let any steps follow in which no
create-window request is answered with that handle.  Then the handle is absent
from the open-window set, and (the context object still existing) the host's
`closeWindow` and `notifyWindowViewChanged`, the plugin's close-window callback
and its fetch-window-image callback are fatal when they name that handle.
The input-event callbacks do not look at the window handle: naming that handle
they return normally, leaving the world unchanged, whenever the trampoline
checks pass. -/
theorem closed_handle_is_rejected (w0 w1 w2 : World) (closing : Step) (rest : List Step)
    (x : WindowHandle)
    (hclosing : (∃ t, closing = .closeWindow t x) ∨
      ∃ t d, closing = .callback t d (.closeWindow x))
    (hclose : step w0 closing = .ok w1) (hrest : run w1 rest = .ok w2)
    (hn : ∀ s ∈ rest, s.creates x = false) :
    x ∉ w2.ctx.openWindows_ ∧
    (w2.alive = true →
      (∀ t, isPanic (closeWindow t x w2) = true) ∧
      (∀ t, isPanic (notifyWindowViewChanged t x w2) = true) ∧
      (∀ t d, isPanic (callbacks_closeWindow t d x w2) = true) ∧
      (∀ t d sink, isPanic (callbacks_fetchWindowImage t d x sink w2) = true)) ∧
    (∀ t d a b c e, ∀ cb ∈ inputEvents x a b c e,
      CTX_CALLBACK t d w2 = .ok () → invoke t d w2 cb = .ok w2) := by
  have hx1 : x ∉ w1.ctx.openWindows_ := by
    rcases hclosing with ⟨t, rfl⟩ | ⟨t, d, rfl⟩
    · obtain ⟨_, _, _, _, _, h5⟩ := closeWindow_ok_inv hclose
      subst h5
      exact Finset.not_mem_erase _ _
    · obtain ⟨_, _, handler, _, h5⟩ :=
        callbacks_closeWindow_ok_inv (show callbacks_closeWindow t d x w0 = .ok w1 from hclose)
      subst h5
      exact Finset.not_mem_erase _ _
  have hx2 : x ∉ w2.ctx.openWindows_ := run_keeps_closed hrest hx1 hn
  refine ⟨hx2, fun ha => ⟨?_, ?_, ?_, ?_⟩, ?_⟩
  · exact fun t => closeWindow_panics_of_not_open t x w2 ha hx2
  · exact fun t => notifyWindowViewChanged_panics_of_not_open t x w2 ha hx2
  · exact fun t d => callbacks_closeWindow_panics_of_not_open t d x w2 ha hx2
  · exact fun t d sink => callbacks_fetchWindowImage_panics_of_not_open t d x sink w2 ha hx2
  · intro t d a b c e cb hcb hc
    have hbody : callbacks_emptyBody t d w2 = .ok w2 := by
      unfold callbacks_emptyBody
      rw [hc]
      rfl
    simp only [inputEvents, List.mem_cons, List.mem_singleton, List.not_mem_nil, or_false] at hcb
    rcases hcb with rfl | rfl | rfl | rfl | rfl | rfl | rfl | rfl | rfl <;> exact hbody

/-- Witness for C10: the host closes window 1; a pump follows in which the
plugin creates window 4 and closes window 2. -/
theorem closed_handle_is_rejected_witness :
    ∃ w1 w2 : World,
      step (World.running {1, 2}) (.closeWindow .ui 1) = .ok w1 ∧
      run w1 [.pumpEventsEnter .ui,
        .callback .ui .context (.createWindow false 4 none true),
        .callback .ui .context (.closeWindow 2), .pumpEventsLeave .ui] = .ok w2 ∧
      1 ∉ w2.ctx.openWindows_ ∧
      (w2.alive = true →
        (∀ t, isPanic (closeWindow t 1 w2) = true) ∧
        (∀ t, isPanic (notifyWindowViewChanged t 1 w2) = true) ∧
        (∀ t d, isPanic (callbacks_closeWindow t d 1 w2) = true) ∧
        (∀ t d sink, isPanic (callbacks_fetchWindowImage t d 1 sink w2) = true)) := by
  obtain ⟨w2, h⟩ := exists_ok_of_toBool (run (World.running {1, 2}) [.closeWindow .ui 1,
    .pumpEventsEnter .ui, .callback .ui .context (.createWindow false 4 none true),
    .callback .ui .context (.closeWindow 2), .pumpEventsLeave .ui]) (by decide)
  obtain ⟨w1, h1, h2⟩ := run_cons_ok_inv h
  have h3 := closed_handle_is_rejected (World.running {1, 2}) w1 w2 (.closeWindow .ui 1)
    [.pumpEventsEnter .ui, .callback .ui .context (.createWindow false 4 none true),
      .callback .ui .context (.closeWindow 2), .pumpEventsLeave .ui] 1
    (Or.inl ⟨.ui, rfl⟩) h1 h2 (by decide)
  exact ⟨w1, w2, h1, h2, h3.1, h3.2.1⟩

/-! ## Reentrancy: callbacks and host calls with respect to the pump -/

/-- C12: every callback of the table other than event-notify (shutdown-complete,
create-window, close-window, resize-window, fetch-window-image and the input
events), invoked on a thread whose active-pump marker is not the context the
callback resolves to, is fatal, and the world in which the process stops is the
world the callback was invoked in: the lifecycle state and the open-window set
are unchanged.  Event-notify is accepted outside a pump: on a Running context it
returns on any thread and with any marker, and leaves the lifecycle state and
the open-window set as they were.  The statement-by-statement form of every
callback returns what `invoke` returns. -/
theorem callbacks_outside_pump_are_fatal (t : Thread) (d : CallbackData) (cb : Callback)
    (w : World) (halive : w.alive = true) :
    (cb ≠ .eventNotify → w.threadActivePumpEventsContext.get t ≠ some w.ctx.this →
      isPanic (invoke t d w cb) = true ∧ ∀ w1, invoke t d w cb ≠ .ok w1) ∧
    (w.ctx.state_ = .Running →
      ∃ w1, invoke t .context w .eventNotify = .ok w1 ∧
        w1.ctx.state_ = w.ctx.state_ ∧ w1.ctx.openWindows_ = w.ctx.openWindows_) ∧
    (cb ≠ .eventNotify → w.threadActivePumpEventsContext.get t ≠ some w.ctx.this →
      isPanic (Op.invoke t d cb w).result = true ∧
      (Op.invoke t d cb w).world = w ∧
      (Op.invoke t d cb w).world.ctx.state_ = w.ctx.state_ ∧
      (Op.invoke t d cb w).world.ctx.openWindows_ = w.ctx.openWindows_) ∧
    (Op.invoke t d cb w).toExcept = invoke t d w cb := by
  refine ⟨?_, ?_, ?_, traced_invoke_eq t d cb w⟩
  · intro hcb hm
    have hp := invoke_panics_of_CTX_CALLBACK t d cb w hcb
      (CTX_CALLBACK_panics_of_marker t d w halive hm)
    exact ⟨hp, not_ok_of_isPanic hp⟩
  · intro hs
    have hg := getContext__running w halive hs
    cases hq : w.ctx.pumpEventsInQueue_
    · refine ⟨postTask .pumpEvents_ { w with ctx := { w.ctx with pumpEventsInQueue_ := true } },
        ?_, rfl, rfl⟩
      simp [invoke, callbacks_eventNotify, CTX_CALLBACK_WITHOUT_PUMPEVENTS_CHECK, hg, hq,
        bind, Except.bind, pure, Except.pure]
    · refine ⟨{ w with ctx := { w.ctx with pumpEventsInQueue_ := true } }, ?_, rfl, rfl⟩
      simp [invoke, callbacks_eventNotify, CTX_CALLBACK_WITHOUT_PUMPEVENTS_CHECK, hg, hq,
        bind, Except.bind, pure, Except.pure]
  · intro hcb hm
    have hp := CTX_CALLBACK_panics_of_marker t d w halive hm
    cases hc : CTX_CALLBACK t d w with
    | ok u =>
      rw [hc] at hp
      cases hp
    | error e =>
      obtain ⟨h1, h2⟩ := traced_invoke_stops_at_CTX_CALLBACK t d cb w e hcb hc
      rw [hc] at hp
      rw [h1, h2]
      exact ⟨hp, rfl, rfl, rfl⟩

/-- Witness for C12: outside any pump the plugin invokes create-window and
shutdown-complete on a Running context. -/
theorem callbacks_outside_pump_are_fatal_witness :
    (World.running {1}).alive = true ∧
    isPanic (invoke .ui .context (World.running {1}) (.createWindow false 5 none true)) = true ∧
    isPanic (Op.invoke .ui .context .shutdownComplete (World.running {1})).result = true ∧
    (Op.invoke .ui .context .shutdownComplete (World.running {1})).world = World.running {1} ∧
    (Op.invoke .ui .context .shutdownComplete (World.running {1})).world.ctx.state_ =
      (World.running {1}).ctx.state_ ∧
    (Op.invoke .ui .context .shutdownComplete (World.running {1})).world.ctx.openWindows_ =
      (World.running {1}).ctx.openWindows_ :=
  ⟨rfl, ((callbacks_outside_pump_are_fatal .ui .context (.createWindow false 5 none true)
    (World.running {1}) rfl).1 (by decide) (by decide)).1,
    (callbacks_outside_pump_are_fatal .ui .context .shutdownComplete
      (World.running {1}) rfl).2.2.1 (by decide) (by decide)⟩

/-- C13: the host's `closeWindow` and `notifyWindowViewChanged` on a live context
are fatal whenever the active-pump marker of the calling thread is non-null
(a pump of any context is executing) or the context is not Running.  When
`notifyWindowViewChanged` returns, the handle was in the open-window set and
the open-window set and the lifecycle state are unchanged; it does return on the
control thread for a Running context, a null marker and an open handle, calling
the plugin's `notifyWindowViewChanged` entry point. -/
theorem host_window_ops_require_no_pump (t : Thread) (window : WindowHandle) (w : World)
    (halive : w.alive = true) :
    (w.threadActivePumpEventsContext.get t ≠ none ∨ w.ctx.state_ ≠ .Running →
      isPanic (closeWindow t window w) = true ∧
      isPanic (notifyWindowViewChanged t window w) = true) ∧
    (∀ w1, notifyWindowViewChanged t window w = .ok w1 →
      window ∈ w.ctx.openWindows_ ∧ w1.ctx.openWindows_ = w.ctx.openWindows_ ∧
      w1.ctx.state_ = w.ctx.state_) ∧
    (t = .ui → w.ctx.state_ = .Running → w.threadActivePumpEventsContext.get t = none →
      window ∈ w.ctx.openWindows_ →
      notifyWindowViewChanged t window w = .ok (w.call (.apiNotifyWindowViewChanged window))) := by
  refine ⟨?_, ?_, ?_⟩
  · intro h
    constructor
    · unfold closeWindow
      simp only [bind_memberOf, bind_REQUIRE, REQUIRE_UI_THREAD, pure, Except.pure, halive,
        if_true]
      rcases h with h | h
      · have : (w.threadActivePumpEventsContext.get t == none) = false := by simpa using h
        simp only [this]
        split_ifs <;> first | rfl | contradiction
      · have : (w.ctx.state_ == State.Running) = false := by simpa using h
        simp only [this]
        split_ifs <;> first | rfl | contradiction
    · unfold notifyWindowViewChanged
      simp only [bind_memberOf, bind_REQUIRE, REQUIRE_UI_THREAD, pure, Except.pure, halive,
        if_true]
      rcases h with h | h
      · have : (w.threadActivePumpEventsContext.get t == none) = false := by simpa using h
        simp only [this]
        split_ifs <;> first | rfl | contradiction
      · have : (w.ctx.state_ == State.Running) = false := by simpa using h
        simp only [this]
        split_ifs <;> first | rfl | contradiction
  · intro w1 h
    obtain ⟨_, _, _, _, h5, h6⟩ := notifyWindowViewChanged_ok_inv h
    subst h6
    exact ⟨h5, rfl, rfl⟩
  · intro ht hs hm hx
    subst ht
    unfold notifyWindowViewChanged
    simp only [bind_memberOf, bind_REQUIRE, REQUIRE_UI_THREAD, pure, Except.pure]
    simp [halive, hs, hm, hx]

/-- Witness for C13: during a pump the host calls `closeWindow` and
`notifyWindowViewChanged` for the open window 1. -/
theorem host_window_ops_require_no_pump_witness :
    (World.pumping {1}).alive = true ∧
    (World.pumping {1}).threadActivePumpEventsContext.get .ui ≠ none ∧
    isPanic (closeWindow .ui 1 (World.pumping {1})) = true ∧
    isPanic (notifyWindowViewChanged .ui 1 (World.pumping {1})) = true :=
  ⟨rfl, by decide,
    (host_window_ops_require_no_pump .ui 1 (World.pumping {1}) rfl).1 (Or.inl (by decide))⟩

/-- C18: `pumpEvents_` on a live context is fatal unless the state is Running and
the active-pump marker of the calling thread is null; in particular a pump
started while a pump of this or of another context is executing is fatal.  On
the control thread, with the state Running and the marker null, it clears the
pending-pump flag, sets the marker to this context and calls the plugin's
`pumpEvents`; whatever happens during that call, the marker of the control
thread stays this context and a further pump is fatal; when the call returns
the marker is null again. -/
theorem pumpEvents__marks_the_pump (t : Thread) (w : World) (halive : w.alive = true) :
    (¬ (w.ctx.state_ = .Running ∧ w.threadActivePumpEventsContext.get t = none) →
      isPanic (pumpEventsEnter t w) = true ∧
      ∀ during, isPanic (pumpEvents_ t during w) = true) ∧
    (w.ctx.state_ = .Running → w.threadActivePumpEventsContext.get .ui = none →
      ∃ w1, pumpEventsEnter .ui w = .ok w1 ∧
        w1.ctx.pumpEventsInQueue_ = false ∧
        w1.threadActivePumpEventsContext.get .ui = some w.ctx.this ∧
        w1.calls = w.calls ++ [.apiPumpEvents] ∧
        ∀ during wmid, run w1 during = .ok wmid →
          (∀ s ∈ during, s ≠ .pumpEventsLeave .ui) →
          wmid.threadActivePumpEventsContext.get .ui = some w.ctx.this ∧
          (wmid.alive = true → ∀ t2, isPanic (pumpEventsEnter t2 wmid) = true) ∧
          pumpEvents_ .ui during w = .ok (pumpEventsLeave .ui wmid) ∧
          (pumpEventsLeave .ui wmid).threadActivePumpEventsContext.get .ui = none) := by
  refine ⟨?_, ?_⟩
  · intro h
    have hp := pumpEventsEnter_panics t w halive h
    refine ⟨hp, fun during => ?_⟩
    unfold pumpEvents_
    exact isPanic_bind_of_isPanic _ _ hp
  · intro hs hm
    have henter : pumpEventsEnter .ui w = .ok (({ w with
        ctx := { w.ctx with pumpEventsInQueue_ := false }
        threadActivePumpEventsContext :=
          w.threadActivePumpEventsContext.set .ui (some w.ctx.this) } : World).call
            .apiPumpEvents) := by
      unfold pumpEventsEnter
      simp only [bind_memberOf, bind_REQUIRE, REQUIRE_UI_THREAD, pure, Except.pure]
      simp [halive, hs, hm]
    refine ⟨_, henter, rfl, rfl, rfl, ?_⟩
    intro during wmid hrun hn
    have hmid := run_keeps_marker hrun hn
      (show (({ w with
        ctx := { w.ctx with pumpEventsInQueue_ := false }
        threadActivePumpEventsContext :=
          w.threadActivePumpEventsContext.set .ui (some w.ctx.this) } : World).call
            .apiPumpEvents).threadActivePumpEventsContext.get .ui = some w.ctx.this from rfl)
    refine ⟨hmid, ?_, ?_, rfl⟩
    · intro ha2 t2
      cases t2 with
      | ui =>
        apply pumpEventsEnter_panics .ui wmid ha2
        rintro ⟨_, hq⟩
        rw [hmid] at hq
        cases hq
      | other =>
        unfold pumpEventsEnter
        simp only [bind_memberOf, bind_REQUIRE, REQUIRE_UI_THREAD, ha2, if_true]
        rfl
    · unfold pumpEvents_
      rw [henter]
      simp only [bind_ok, hrun]
      rfl

/-- Witness for C18: a pump of a Running context during which the plugin
creates window 4. -/
theorem pumpEvents__marks_the_pump_witness :
    (World.running {1}).alive = true ∧
    (World.running {1}).ctx.state_ = .Running ∧
    (World.running {1}).threadActivePumpEventsContext.get .ui = none ∧
    ∃ w1, pumpEventsEnter .ui (World.running {1}) = .ok w1 ∧
      w1.ctx.pumpEventsInQueue_ = false ∧
      w1.threadActivePumpEventsContext.get .ui = some (World.running {1}).ctx.this ∧
      w1.calls = (World.running {1}).calls ++ [.apiPumpEvents] ∧
      ∃ w2, pumpEvents_ .ui [.callback .ui .context (.createWindow false 4 none true)]
          (World.running {1}) = .ok w2 ∧
        w2.threadActivePumpEventsContext.get .ui = none := by
  obtain ⟨w1, h1, h2, h3, h4, h5⟩ :=
    (pumpEvents__marks_the_pump .ui (World.running {1}) rfl).2 rfl rfl
  refine ⟨rfl, rfl, rfl, w1, h1, h2, h3, h4, ?_⟩
  have h6 : w1 = World.pumping {1} := by
    have h7 : pumpEventsEnter .ui (World.running {1}) = .ok (World.pumping {1}) := by decide
    rw [h7] at h1
    exact (Except.ok.inj h1).symm
  subst h6
  obtain ⟨wmid, h8⟩ := exists_ok_of_toBool
    (run (World.pumping {1}) [.callback .ui .context (.createWindow false 4 none true)])
    (by decide)
  obtain ⟨_, _, h9, h10⟩ := h5 _ wmid h8 (by decide)
  exact ⟨_, h9, h10⟩

/-! ## Loading a plugin -/

/-- C15: `VicePlugin::load` on the control thread returns a plugin exactly when
the library opens, each of the twelve entry points (`isAPIVersionSupported`,
`getVersionString`, `initContext`, `destroyContext`, `start`, `shutdown`,
`pumpEvents`, `closeWindow`, `notifyWindowViewChanged`, `getOptionDocs`,
`setGlobalLogCallback`, `setGlobalPanicCallback`, prefixed `vicePluginAPI_`)
resolves, and the library reports API version 1000000 as supported.  The plugin
then carries the file name and that version, the library stays open and the log
and panic callbacks are registered with the file name.  In every other case the
empty pointer is returned and the process state is what it was before the call:
a library that had been opened is closed again and no callback is registered. -/
theorem load_returns_plugin_iff (dlopen : String → Option Library) (filename : String)
    (p : Process) :
    ((∃ plugin p1, VicePlugin.load .ui dlopen filename p = .ok (some plugin, p1)) ↔
      ∃ lib, dlopen filename = some lib ∧
        (∀ name ∈ ["isAPIVersionSupported", "getVersionString", "initContext",
            "destroyContext", "start", "shutdown", "pumpEvents", "closeWindow",
            "notifyWindowViewChanged", "getOptionDocs", "setGlobalLogCallback",
            "setGlobalPanicCallback"],
          lib.symbols ("vicePluginAPI_" ++ name) = true) ∧
        lib.isAPIVersionSupported 1000000 = true) ∧
    (∀ lib, dlopen filename = some lib →
      (∀ name ∈ apiFuncNames, lib.symbols ("vicePluginAPI_" ++ name) = true) →
      lib.isAPIVersionSupported 1000000 = true →
      VicePlugin.load .ui dlopen filename p =
        .ok (some { filename_ := filename, apiVersion_ := 1000000, lib := lib },
          { openHandles := p.openHandles + 1, logCallback := some filename,
            panicCallback := some filename })) ∧
    ((¬ ∃ lib, dlopen filename = some lib ∧
        (∀ name ∈ apiFuncNames, lib.symbols ("vicePluginAPI_" ++ name) = true) ∧
        lib.isAPIVersionSupported 1000000 = true) →
      VicePlugin.load .ui dlopen filename p = .ok (none, p)) := by
  have hpos : ∀ lib, dlopen filename = some lib →
      (∀ name ∈ apiFuncNames, lib.symbols ("vicePluginAPI_" ++ name) = true) →
      lib.isAPIVersionSupported 1000000 = true →
      VicePlugin.load .ui dlopen filename p =
        .ok (some { filename_ := filename, apiVersion_ := 1000000, lib := lib },
          { openHandles := p.openHandles + 1, logCallback := some filename,
            panicCallback := some filename }) := by
    intro lib hopen hsym hver
    have hfm := (firstMissing_eq_none_iff lib apiFuncNames).mpr hsym
    unfold VicePlugin.load
    simp [REQUIRE_UI_THREAD, REQUIRE, hopen, hfm, hver, bind, Except.bind, pure, Except.pure]
  have hneg : (¬ ∃ lib, dlopen filename = some lib ∧
      (∀ name ∈ apiFuncNames, lib.symbols ("vicePluginAPI_" ++ name) = true) ∧
      lib.isAPIVersionSupported 1000000 = true) →
      VicePlugin.load .ui dlopen filename p = .ok (none, p) := by
    intro hn
    unfold VicePlugin.load
    cases hopen : dlopen filename with
    | none => simp [REQUIRE_UI_THREAD, REQUIRE, bind, Except.bind, pure, Except.pure]
    | some lib =>
      cases hfm : firstMissing lib apiFuncNames with
      | some name =>
        simp [REQUIRE_UI_THREAD, REQUIRE, hfm, dlclose_after_open, bind, Except.bind, pure,
          Except.pure]
      | none =>
        have hver : lib.isAPIVersionSupported 1000000 = false := by
          cases hv : lib.isAPIVersionSupported 1000000
          · rfl
          · exact absurd ⟨lib, hopen, (firstMissing_eq_none_iff lib apiFuncNames).mp hfm, hv⟩ hn
        simp [REQUIRE_UI_THREAD, REQUIRE, hfm, hver, dlclose_after_open, bind, Except.bind,
          pure, Except.pure]
  refine ⟨⟨?_, ?_⟩, hpos, hneg⟩
  · rintro ⟨plugin, p1, h⟩
    by_contra hn
    rw [hneg hn] at h
    simp at h
  · rintro ⟨lib, hopen, hsym, hver⟩
    exact ⟨_, _, hpos lib hopen hsym hver⟩

/-- Witness for C15: a library that lacks `vicePluginAPI_pumpEvents` is opened,
found incomplete and closed again; a complete library is loaded. -/
theorem load_returns_plugin_iff_witness :
    VicePlugin.load .ui
        (fun _ => some { Library.quality with symbols := fun s => s != "vicePluginAPI_pumpEvents" })
        "retrojsvice.so" { openHandles := 0, logCallback := none, panicCallback := none } =
      .ok (none, { openHandles := 0, logCallback := none, panicCallback := none }) ∧
    ∃ plugin p1, VicePlugin.load .ui (fun _ => some Library.quality) "retrojsvice.so"
      { openHandles := 0, logCallback := none, panicCallback := none } = .ok (some plugin, p1) :=
  ⟨(load_returns_plugin_iff _ "retrojsvice.so" _).2.2 (by
      rintro ⟨lib, hopen, hsym, _⟩
      cases hopen
      have := hsym "pumpEvents" (by decide)
      revert this
      decide),
    (load_returns_plugin_iff _ "retrojsvice.so" _).1.mpr
      ⟨Library.quality, rfl, fun _ _ => rfl, rfl⟩⟩

/-- C16: `VicePlugin::getOptionDocs` on the control thread calls the plugin's
`getOptionDocs` entry point exactly once, with the negotiated API version, and
returns exactly the items the entry point passed to the collector, in call
order: as many items as there were collector calls, the i-th item being the four
strings of the i-th call.  No collector call yields the empty sequence; a
library loaded from a file whose only option is "quality" with default "75"
yields exactly one item, with that name and that default. -/
theorem getOptionDocs_collects_in_order (plugin : VicePlugin) :
    VicePlugin.getOptionDocs .ui plugin =
      .ok (plugin.lib.getOptionDocs plugin.apiVersion_, [plugin.apiVersion_]) ∧
    (∀ items, VicePlugin.getOptionDocs .ui plugin = .ok (items, [plugin.apiVersion_]) →
      items.length = (plugin.lib.getOptionDocs plugin.apiVersion_).length ∧
      ∀ i, items.get? i = (plugin.lib.getOptionDocs plugin.apiVersion_).get? i) ∧
    (plugin.lib.getOptionDocs plugin.apiVersion_ = [] →
      VicePlugin.getOptionDocs .ui plugin = .ok ([], [plugin.apiVersion_])) ∧
    (∃ loaded p1,
      VicePlugin.load .ui (fun _ => some Library.quality) "retrojsvice.so"
        { openHandles := 0, logCallback := none, panicCallback := none } =
          .ok (some loaded, p1) ∧
      ∃ item, VicePlugin.getOptionDocs .ui loaded = .ok ([item], [1000000]) ∧
        item.name = "quality" ∧ item.defaultValStr = "75") := by
  have h : VicePlugin.getOptionDocs .ui plugin =
      .ok (plugin.lib.getOptionDocs plugin.apiVersion_, [plugin.apiVersion_]) := by
    unfold VicePlugin.getOptionDocs
    simp [REQUIRE_UI_THREAD, REQUIRE, runOptionDocs_eq_append, bind, Except.bind, pure,
      Except.pure]
  refine ⟨h, ?_, ?_, ?_⟩
  · intro items hi
    rw [h] at hi
    simp only [Except.ok.injEq, Prod.mk.injEq] at hi
    rw [← hi.1]
    exact ⟨rfl, fun _ => rfl⟩
  · intro he
    rw [h, he]
  · exact ⟨_, _, rfl, _, rfl, rfl, rfl⟩

/-- Witness for C16: the plugin loaded from the library whose only option is
"quality". -/
theorem getOptionDocs_collects_in_order_witness :
    VicePlugin.getOptionDocs .ui
        { filename_ := "retrojsvice.so", apiVersion_ := 1000000, lib := Library.quality } =
      .ok ([{ name := "quality", valSpec := "QUALITY", desc := "image quality",
              defaultValStr := "75" }], [1000000]) :=
  (getOptionDocs_collects_in_order
    { filename_ := "retrojsvice.so", apiVersion_ := 1000000, lib := Library.quality }).1

/-! ## The event pump -/

/-- C19 (the code at the failing input): a context is started, the host calls
`shutdown` once, and the plugin notifies events from another thread, which
posts a pump task.  The event loop runs that pump; during it the plugin calls
event-notify (the flag has been cleared, so a second pump task is posted) and
then shutdown-complete.  Everything so far returns normally, and every call was
made as the protocol allows.  The event loop then runs the queued pump task:
`pumpEvents_` finds the state ShutdownComplete and its requirement that the
state be Running fails, in the diagnostic build and in the `NDEBUG` build
alike. -/
theorem queued_pump_after_shutdownComplete_is_fatal :
    (∃ w1, exec (World.fresh false 7)
        [.step (.start .ui (some 3)), .step (.shutdown .ui),
          .step (.callback .other .context .eventNotify),
          .task [.callback .ui .context .eventNotify,
            .callback .ui .context .shutdownComplete]] = .ok w1 ∧
      w1.ctx.state_ = .ShutdownComplete ∧
      w1.taskQueue = [.pumpEvents_, .onViceContextShutdownComplete 3] ∧
      w1.threadActivePumpEventsContext.get .ui = none) ∧
    exec (World.fresh false 7)
        [.step (.start .ui (some 3)), .step (.shutdown .ui),
          .step (.callback .other .context .eventNotify),
          .task [.callback .ui .context .eventNotify,
            .callback .ui .context .shutdownComplete],
          .task []] = PANIC "Requirement failed: state_ == Running" ∧
    exec (World.fresh true 7)
        [.step (.start .ui (some 3)), .step (.shutdown .ui),
          .step (.callback .other .context .eventNotify),
          .task [.callback .ui .context .eventNotify,
            .callback .ui .context .shutdownComplete],
          .task []] = PANIC "Requirement failed: state_ == Running" :=
  ⟨⟨_, rfl, rfl, rfl, rfl⟩, rfl, rfl⟩

/-- C11: let `k >= 1` invocations of event-notify run concurrently on a live
Running context whose pending-pump flag is clear, each consisting of its atomic
exchange followed by its conditional `postTask`, and let no pump run meanwhile.
Whatever the interleaving, no invocation faults; at every point at most one pump
task has been posted, and the posted task together with the invocations that
have exchanged the value false but not yet posted are one when the flag is set
and none when it is clear; once all `k` invocations have returned, exactly one
pump task has been posted and the flag is set.  The callback taken as a whole is
the exchange followed by the conditional post.  In general, in every execution
from a freshly constructed context in which callbacks are taken as a whole and
the pump is entered through the task queue only, the number of pump tasks posted
and not yet run is at most one, and is one exactly when the flag is set. -/
theorem eventNotify_posts_one_pump (k : Nat) (w : World) (schedule : List NotifyStep)
    (hk : 1 ≤ k) (halive : w.alive = true) (hrun : w.ctx.state_ = .Running)
    (hflag : w.ctx.pumpEventsInQueue_ = false) :
    (∃ w1 n1 posted,
      interleave .context (w, Notifiers.fresh k) schedule = .ok (w1, n1) ∧
      w1.taskQueue = w.taskQueue ++ List.replicate posted .pumpEvents_ ∧ posted ≤ 1 ∧
      n1.holdingFalse + posted = (if w1.ctx.pumpEventsInQueue_ then 1 else 0) ∧
      (n1.returned = k →
        w1.taskQueue = w.taskQueue ++ [.pumpEvents_] ∧ w1.ctx.pumpEventsInQueue_ = true)) ∧
    (∀ d w2, callbacks_eventNotify d w2 =
      (eventNotifyExchange d w2).map (fun p => eventNotifyPost p.2 p.1)) ∧
    (∀ ndebug this actions wf, (∀ a ∈ actions, a.viaQueue = true) →
      exec (World.fresh ndebug this) actions = .ok wf →
      pendingPumps wf ≤ 1 ∧ (pendingPumps wf = 1 ↔ wf.ctx.pumpEventsInQueue_ = true)) := by
  refine ⟨?_, callbacks_eventNotify_eq_halves, ?_⟩
  · have h0 : NotifyInv w k (w, Notifiers.fresh k) 0 := by
      refine ⟨halive, hrun, by simp, by simp [hflag, Notifiers.fresh],
        fun _ => ⟨rfl, rfl, rfl⟩, by simp [Notifiers.fresh]⟩
    obtain ⟨⟨w1, n1⟩, posted, h1, h2⟩ := interleave_inv w k schedule _ 0 h0
    obtain ⟨_, _, hq, hc, hz, hsum⟩ := h2
    simp only at hq hc hz hsum
    have hle : posted ≤ 1 := by
      cases hf : w1.ctx.pumpEventsInQueue_
      · simp [hf] at hc
        omega
      · simp [hf] at hc
        omega
    refine ⟨w1, n1, posted, h1, hq, hle, hc, ?_⟩
    intro hret
    have hf : w1.ctx.pumpEventsInQueue_ = true := by
      cases hf : w1.ctx.pumpEventsInQueue_
      · have := (hz hf).2.2
        omega
      · rfl
    have hp : posted = 1 := by
      simp [hf] at hc
      omega
    subst hp
    exact ⟨by simpa using hq, hf⟩
  · intro ndebug this actions wf hv hexec
    have hj : flagCountsPumps wf :=
      exec_flagCounts hexec hv (by simp [flagCountsPumps, pendingPumps, World.fresh,
        ViceContext.new])
    unfold flagCountsPumps at hj
    cases hf : wf.ctx.pumpEventsInQueue_
    · simp [hf] at hj
      simp [hj]
    · simp [hf] at hj
      simp [hj]

/-- Witness for C11: two concurrent invocations, both exchanging before either
posts; the invocation that obtained the value true returns first. -/
theorem eventNotify_posts_one_pump_witness :
    (World.running {1}).alive = true ∧ (World.running {1}).ctx.state_ = .Running ∧
    (World.running {1}).ctx.pumpEventsInQueue_ = false ∧
    (interleave .context (World.running {1}, Notifiers.fresh 2)
      [.exchange, .exchange, .finish true, .finish false]).map (fun st => st.2.returned) =
        .ok 2 ∧
    ∃ w1 n1 posted,
      interleave .context (World.running {1}, Notifiers.fresh 2)
        [.exchange, .exchange, .finish true, .finish false] = .ok (w1, n1) ∧
      w1.taskQueue = (World.running {1}).taskQueue ++ List.replicate posted .pumpEvents_ ∧
      posted ≤ 1 ∧
      n1.holdingFalse + posted = (if w1.ctx.pumpEventsInQueue_ then 1 else 0) ∧
      (n1.returned = 2 →
        w1.taskQueue = (World.running {1}).taskQueue ++ [.pumpEvents_] ∧
        w1.ctx.pumpEventsInQueue_ = true) :=
  ⟨rfl, rfl, rfl, by decide,
    (eventNotify_posts_one_pump 2 (World.running {1})
      [.exchange, .exchange, .finish true, .finish false] (by decide) rfl rfl rfl).1⟩

end Browservice
